import Mathlib

/-!
# zombie-drivers: location history, windowed query and zombie classification

Shallow embedding of `driver-location/driver-location.go` and
`zombie-driver/zombie-driver.go`.

Conventions of the embedding
* `float64` values are exact rationals (`ℚ`): comparisons and sums are the exact ones.
* `int64` timestamps are integers (`Int`); no value in reach of the code comes near 2^63.
* Redis, the HTTP peer and the JSON decoder are the environment: each call is answered by
  a reply that the handler receives as data. A call that may be repeated inside one loop
  also receives the loop index, so that two calls with equal arguments may be answered
  differently.
* A run-time panic of a handler (index out of range, nil dereference) is an explicit
  outcome.
* The store keeps a position as a 52-bit geohash: what it gives back for a written
  position is the centre of the geohash cell, computed here in exact arithmetic.
-/

namespace ZombieDrivers

/-! ## Values shared by the services -/

/-- Error value returned by a Redis call: `redis.ErrNil` for a nil reply, or any other
error (connection, wrong type, malformed reply). -/
inductive RedisErr where
  | errNil
  | other (msg : String)
  deriving DecidableEq, Repr

/-- Dynamic value held in a Go `interface{}`: what `encoding/json` decodes (nil, bool,
float64, string, slice, map) and the Go `int` and `int64` values the code stores next to
them. -/
inductive JValue where
  | null
  | bool (b : Bool)
  | num (f : ℚ)
  | str (s : String)
  | arr (items : List JValue)
  | obj (fields : List (String × JValue))
  | int (n : Int)
  | int64 (n : Int)

/-- Go `map[string]interface{}`: an association list read with `List.lookup`. -/
abbrev JObject := List (String × JValue)

/-! ## Time: `time.Unix(ts, 0).UTC().Format(time.RFC3339)` and `time.Parse(time.RFC3339, s)` -/

/-- Decimal digit character of `n % 10`. -/
def digitChar (n : Nat) : Char := Char.ofNat (48 + n % 10)

/-- Two-digit zero-padded rendering. -/
def pad2 (n : Nat) : List Char := [digitChar (n / 10), digitChar n]

/-- Four-digit zero-padded rendering (years 0000..9999). -/
def pad4 (n : Nat) : List Char :=
  [digitChar (n / 1000), digitChar (n / 100), digitChar (n / 10), digitChar n]

/-- Civil date (year, month, day) of a day count relative to 1970-01-01, proleptic
Gregorian calendar. -/
def civilFromDays (days : Int) : Int × Int × Int :=
  let z := days + 719468
  let era := z / 146097
  let doe := z - era * 146097
  let yoe := (doe - doe / 1460 + doe / 36524 - doe / 146096) / 365
  let doy := doe - (365 * yoe + yoe / 4 - yoe / 100)
  let mp := (5 * doy + 2) / 153
  let d := doy - (153 * mp + 2) / 5 + 1
  let m := if mp < 10 then mp + 3 else mp - 9
  let y := yoe + era * 400 + (if m ≤ 2 then 1 else 0)
  (y, m, d)

/-- Day count relative to 1970-01-01 of a civil date. -/
def daysFromCivil (y m d : Int) : Int :=
  let y1 := if m ≤ 2 then y - 1 else y
  let era := y1 / 400
  let yoe := y1 - era * 400
  let mp := if m > 2 then m - 3 else m + 9
  let doy := (153 * mp + 2) / 5 + d - 1
  let doe := yoe * 365 + yoe / 4 - yoe / 100 + doy
  era * 146097 + doe - 719468

/-- Source `timestampAsISO`: the UTC rendering of a Unix timestamp in the layout
`2006-01-02T15:04:05Z07:00`. The year is rendered on four digits, which is the Go
rendering for the years 0000..9999. -/
def timestampAsISO (ts : Int) : String :=
  let days := ts / 86400
  let secs := ts % 86400
  let (y, m, d) := civilFromDays days
  String.mk (pad4 y.toNat ++ ['-'] ++ pad2 m.toNat ++ ['-'] ++ pad2 d.toNat ++ ['T']
    ++ pad2 (secs / 3600).toNat ++ [':'] ++ pad2 (secs % 3600 / 60).toNat ++ [':']
    ++ pad2 (secs % 60).toNat ++ ['Z'])

/-- Value of a decimal digit character. -/
def digitOf (c : Char) : Option Nat :=
  if 48 ≤ c.toNat ∧ c.toNat ≤ 57 then some (c.toNat - 48) else none

/-- Two-digit number. -/
def num2 (a b : Char) : Option Nat :=
  match digitOf a, digitOf b with
  | some x, some y => some (10 * x + y)
  | _, _ => none

/-- Four-digit number. -/
def num4 (a b c d : Char) : Option Nat :=
  match num2 a b, num2 c d with
  | some x, some y => some (100 * x + y)
  | _, _ => none

/-- Number of days of a month. -/
def daysIn (y m : Nat) : Nat :=
  if m = 2 then (if y % 4 = 0 ∧ (y % 100 ≠ 0 ∨ y % 400 = 0) then 29 else 28)
  else if m = 4 ∨ m = 6 ∨ m = 9 ∨ m = 11 then 30 else 31

/-- Drops an optional fractional-seconds part: a period or comma followed by at least one
digit. -/
def dropFraction : List Char → List Char
  | c :: d :: rest =>
    if (c = '.' ∨ c = ',') ∧ (digitOf d).isSome then rest.dropWhile (fun x => (digitOf x).isSome)
    else c :: d :: rest
  | l => l

/-- Zone suffix `Z07:00`: `Z`, or a signed `hh:mm` offset, in seconds east of UTC. -/
def parseZone : List Char → Option Int
  | ['Z'] => some 0
  | [sg, h1, h2, ':', m1, m2] =>
    match num2 h1 h2, num2 m1 m2 with
    | some hh, some mm =>
      if hh < 24 ∧ mm < 60 then
        if sg = '+' then some ((hh * 3600 + mm * 60 : Nat) : Int)
        else if sg = '-' then some (-((hh * 3600 + mm * 60 : Nat) : Int))
        else none
      else none
    | _, _ => none
  | _ => none

/-- Model of `time.Parse(time.RFC3339, s)` followed by `Unix()`: the Unix seconds of an
RFC 3339 date-time, or `none` when the string does not parse. -/
def parseRFC3339 (s : String) : Option Int :=
  match s.data with
  | y1 :: y2 :: y3 :: y4 :: '-' :: mo1 :: mo2 :: '-' :: d1 :: d2 :: 'T' :: h1 :: h2 :: ':'
      :: mi1 :: mi2 :: ':' :: s1 :: s2 :: rest =>
    match num4 y1 y2 y3 y4, num2 mo1 mo2, num2 d1 d2, num2 h1 h2, num2 mi1 mi2, num2 s1 s2,
        parseZone (dropFraction rest) with
    | some y, some mo, some d, some h, some mi, some sec, some off =>
      if 1 ≤ mo ∧ mo ≤ 12 ∧ 1 ≤ d ∧ d ≤ daysIn y mo ∧ h < 24 ∧ mi < 60 ∧ sec < 60 then
        some (daysFromCivil y mo d * 86400 + ((h * 3600 + mi * 60 + sec : Nat) : Int) - off)
      else none
    | _, _, _, _, _, _, _ => none
  | _ => none

/-! ## zombie-driver service -/

/-- Source constant `ZombieElapse` (minutes). -/
def ZombieElapse : ℚ := 5

/-- Source constant `ZombieMaxDistanceCovered` (metres). -/
def ZombieMaxDistanceCovered : ℚ := 500

/-- Source constant `ZEKey`. -/
def ZEKey : String := "zombie-e"

/-- Source constant `ZMDCKey`. -/
def ZMDCKey : String := "zombie-mdc"

/-- Rendering `fmt.Sprintf("driver:%v:log", id)` of the position-log key. -/
def logKey (id : String) : String := "driver:" ++ id ++ ":log"

/-- Rendering `fmt.Sprintf("driver:%v:timestamps", id)` of the timestamp-set key. -/
def timestampsKey (id : String) : String := "driver:" ++ id ++ ":timestamps"

/-- Outcome of `ioutil.ReadAll(resp.Body)` followed by `json.Unmarshal(body, &parsedBody)`
with `parsedBody` a `[]map[string]interface{}`. -/
inductive Body where
  | unreadable
  | undecodable
  | decoded (parsedBody : List JObject)

/-- Outcome of `http.Get(url)`. -/
inductive HttpResult where
  | failed
  | response (statusCode : Nat) (body : Body)

/-- Environment of one zombie-driver request. -/
structure ZombieEnv where
  /-- Reply `redis.Float64(conn.Do("GET", key))`. -/
  getFloat : String → Except RedisErr ℚ
  /-- Reply `http.Get` of the driver-location service for
  `/drivers/{id}/locations?minutes={ze}&distance=true`. -/
  httpGet : String → ℚ → HttpResult
  /-- Reply `redis.Float64(conn.Do("GEODIST", key, ts, prev, "m"))` of the call made at loop
  index `j`. -/
  geodist : Nat → String → Int → Int → Except RedisErr ℚ

/-- Source `getZombieParams`. -/
def getZombieParams (env : ZombieEnv) : ℚ × ℚ :=
  let ze := match env.getFloat ZEKey with
    | .ok v => v
    | .error _ => ZombieElapse
  let zmdc := match env.getFloat ZMDCKey with
    | .ok v => v
    | .error _ => ZombieMaxDistanceCovered
  (ze, zmdc)

/-- First loop body of `evaluateDistance`: the Unix timestamp of one entry, when its
`updated_at` field is there, is a string and parses. -/
def updatedAtUnix (jsonEntry : JObject) : Option Int :=
  match jsonEntry.lookup "updated_at" with
  | none => none
  | some (JValue.str ISOts) => parseRFC3339 ISOts
  | some _ => none

/-- First loop of `evaluateDistance`: the list `tsList`. -/
def tsListOf (parsedBody : List JObject) : List Int :=
  parsedBody.filterMap updatedAtUnix

/-- Second loop of `evaluateDistance` from index `j` on, `prev` being `tsList[j-1]`. -/
def sumDeltas (env : ZombieEnv) (id : String) :
    Nat → Int → List Int → ℚ → Except RedisErr ℚ
  | _, _, [], cumulativeDistance => .ok cumulativeDistance
  | j, prev, ts :: rest, cumulativeDistance =>
    match env.geodist j (logKey id) ts prev with
    | .error err => .error err
    | .ok delta => sumDeltas env id (j + 1) ts rest (cumulativeDistance + delta)

/-- Source `evaluateDistance`. -/
def evaluateDistance (env : ZombieEnv) (parsedBody : List JObject) (id : String) :
    Except RedisErr ℚ :=
  match tsListOf parsedBody with
  | [] => .ok 0
  | ts :: rest => sumDeltas env id 1 ts rest (0 + 0)

/-- Lines 255-288 of `isZombie`: the distance compared against the threshold, or the
error of the recomputation. -/
def zombieDistance (env : ZombieEnv) (parsedBody : List JObject) (id : String) :
    Except RedisErr ℚ :=
  match parsedBody.getLast? with
  | none => .ok 0
  | some last =>
    match last.lookup "cumulativeDistance" with
    | some (JValue.num f) => .ok f
    | some _ => evaluateDistance env parsedBody id
    | none => evaluateDistance env parsedBody id

/-- Source `isZombie`: the pair `(brainHungry, statusCode)`. -/
def isZombie (env : ZombieEnv) (id : String) : Bool × Nat :=
  let ze := (getZombieParams env).1
  let zmdc := (getZombieParams env).2
  match env.httpGet id ze with
  | .failed => (false, 503)
  | .response statusCode body =>
    if statusCode ≠ 200 then (false, statusCode)
    else
      match body with
      | .unreadable => (false, 500)
      | .undecodable => (false, 500)
      | .decoded parsedBody =>
        match zombieDistance env parsedBody id with
        | .error _ => (false, 500)
        | .ok distance => (decide (distance ≤ zmdc), 200)

/-! ## driver-location service: the query handler -/

/-- Source constant `DefaultMins`. -/
def DefaultMins : ℚ := 5

/-- One element `newElement` of the response of `getLocations`; the two distance fields are
present exactly when the distance was requested. -/
structure Record where
  latitude : ℚ
  longitude : ℚ
  updated_at : String
  elapsedDistance : Option ℚ
  cumulativeDistance : Option ℚ
  deriving DecidableEq

/-- What a gin handler sends back, or the fact that it panicked. -/
inductive Reply where
  | text (status : Nat) (body : String)
  | message (status : Nat) (message : String)
  | records (status : Nat) (response : List Record)
  | panicked
  deriving DecidableEq

/-- Environment of one `getLocations` request. -/
structure LocationEnv where
  /-- Value `time.Now().Unix()`. -/
  now : Int
  /-- Reply `redis.Int64s(conn.Do("SORT", key, "LIMIT", 0, count, "DESC"))`. -/
  sort : String → ℚ → Except RedisErr (List Int)
  /-- Reply `redis.Positions(conn.Do("GEOPOS", key, timestamp))` of the call made at loop
  index `i`: an error, or one entry per requested member, `none` for a member the key does
  not hold, else `(longitude, latitude)`. -/
  geopos : Nat → String → Int → Except RedisErr (List (Option (ℚ × ℚ)))
  /-- Reply `redis.Float64(conn.Do("GEODIST", key, a, b, "m"))` of the call made at loop
  index `i`. -/
  geodist : Nat → String → Int → Int → Except RedisErr ℚ

/-- Expression `math.Floor(x*1e6) / 1e6`. -/
def floor6 (x : ℚ) : ℚ := (⌊x * 1000000⌋ : ℚ) / 1000000

/-- Expression `math.Floor(x*1e3) / 1e3`. -/
def floor3 (x : ℚ) : ℚ := (⌊x * 1000⌋ : ℚ) / 1000

/-- First loop of `getLocations`: copies the listing up to the first timestamp older than
`now - min*60`, where the loop sets `i = len(reply)`. -/
def eligibleScan (now : Int) (window : ℚ) : List Int → List Int
  | [] => []
  | timestamp :: rest =>
    if (timestamp : ℚ) ≥ (now : ℚ) - window then timestamp :: eligibleScan now window rest
    else []

/-- Second loop of `getLocations` from index `i` on, with `n` iterations left; `none` is a
panic (index out of range, or dereference of a nil position entry). -/
def responseLoop (env : LocationEnv) (id : String) (wantsDistance : Bool)
    (eligibleTimestamps : List Int) : Nat → Nat → ℚ → List Record → Option (List Record)
  | 0, _, _, response => some response
  | n + 1, i, total, response =>
    let j := eligibleTimestamps.length - 1 - i
    match eligibleTimestamps[j]? with
    | none => none
    | some timestamp =>
      match env.geopos i (logKey id) timestamp with
      | .error _ => responseLoop env id wantsDistance eligibleTimestamps n (i + 1) total response
      | .ok [] => none
      | .ok (none :: _) => none
      | .ok (some (lon, lat) :: _) =>
        if wantsDistance then
          if i = 0 then
            let total1 := total + 0
            responseLoop env id wantsDistance eligibleTimestamps n (i + 1) total1
              (response ++ [⟨floor6 lat, floor6 lon, timestampAsISO timestamp,
                some (floor3 0), some (floor3 total1)⟩])
          else
            match eligibleTimestamps[j + 1]? with
            | none => none
            | some next =>
              let delta := match env.geodist i (logKey id) timestamp next with
                | .ok d => d
                | .error _ => 0
              let total1 := total + delta
              responseLoop env id wantsDistance eligibleTimestamps n (i + 1) total1
                (response ++ [⟨floor6 lat, floor6 lon, timestampAsISO timestamp,
                  some (floor3 delta), some (floor3 total1)⟩])
        else
          responseLoop env id wantsDistance eligibleTimestamps n (i + 1) total
            (response ++ [⟨floor6 lat, floor6 lon, timestampAsISO timestamp, none, none⟩])

/-- Source `getLocations`. `minutes` is the result of `strconv.ParseFloat` on the `minutes`
query parameter (`none` when it does not parse; an absent parameter reads `"5"`), and
`wantsDistance` is the test `distanceReq == "true"`. -/
def getLocations (env : LocationEnv) (id : String) (minutes : Option ℚ)
    (wantsDistance : Bool) : Reply :=
  let min := minutes.getD DefaultMins
  match env.sort (timestampsKey id) (min * 60) with
  | .error _ => .text 500 "Ooops. Something went wrong on our side."
  | .ok reply =>
    if reply.length = 0 then .message 404 "Driver not found"
    else
      let eligibleTimestamps := eligibleScan env.now (min * 60) reply
      match responseLoop env id wantsDistance eligibleTimestamps eligibleTimestamps.length
          0 0 [] with
      | none => .panicked
      | some response => .records 200 response

/-! ## The store engine and the write path -/

/-- Largest latitude the engine indexes (`GEO_LAT_MAX`); the smallest is its opposite.
Longitudes run over -180..180. -/
def GeoLatMax : ℚ := 85.05112878

/-- Centre of the cell of `x` when the range `min..max` is cut into 2^26 equal cells. The
engine keeps of a coordinate the number of its cell, on 26 bits, and gives back the centre
of that cell. -/
def cellCentre (min max x : ℚ) : ℚ :=
  min + ((⌊(x - min) / (max - min) * 67108864⌋ : ℚ) + 1 / 2) / 67108864 * (max - min)

/-- Position the engine gives back for a position written as `(longitude, latitude)`: the
centre of its 52-bit geohash cell, 26 bits for each coordinate. -/
def geohashCentre (longitude latitude : ℚ) : ℚ × ℚ :=
  (cellCentre (-180) 180 longitude, cellCentre (-GeoLatMax) GeoLatMax latitude)

/-- State of the store: plain sets of integers by key, geospatial sets by key whose members
are timestamps, and the `on-course` geospatial set whose members are driver ids.
Positions are `(longitude, latitude)`, the argument order of `GEOADD`. A geospatial set
holds for a member the position the engine gives back for it, which is the centre of the
geohash cell of the position written and not the position written itself. -/
structure Store where
  sets : String → List Int
  geo : String → Int → Option (ℚ × ℚ)
  onCourse : String → Option (ℚ × ℚ)

/-- Command `SADD key member`. -/
def Store.sadd (s : Store) (key : String) (member : Int) : Store :=
  { s with sets := fun k =>
      if k = key then (if member ∈ s.sets key then s.sets key else member :: s.sets key)
      else s.sets k }

/-- Command `GEOADD key longitude latitude member` on a timestamp-keyed set: the member is
added, or its position replaced; the position kept is the centre of the geohash cell. -/
def Store.geoadd (s : Store) (key : String) (longitude latitude : ℚ) (member : Int) :
    Store :=
  { s with geo := fun k m =>
      if k = key ∧ m = member then some (geohashCentre longitude latitude) else s.geo k m }

/-- Command `GEOADD on-course longitude latitude id`. -/
def Store.geoaddOnCourse (s : Store) (longitude latitude : ℚ) (id : String) : Store :=
  { s with onCourse := fun m =>
      if m = id then some (geohashCentre longitude latitude) else s.onCourse m }

/-- Command `SORT key LIMIT 0 count DESC` on a set of integers. The count travels as the
shortest `%g` rendering of a float64, which the engine reads as an integer exactly for
whole values of magnitude below 10^6; any other count is answered by an error. A negative
count lifts the limit. -/
def Store.sortDesc (s : Store) (key : String) (count : ℚ) : Except RedisErr (List Int) :=
  if count.den = 1 ∧ -1000000 < count.num ∧ count.num < 1000000 then
    let sorted := (s.sets key).insertionSort (fun a b => a ≥ b)
    if count.num < 0 then .ok sorted else .ok (sorted.take count.num.toNat)
  else .error (.other "ERR value is not an integer or out of range")

/-- Command `GEOPOS key member`: one entry, nil for a member the key does not hold, else
the position kept for it. -/
def Store.geoposReply (s : Store) (key : String) (member : Int) :
    Except RedisErr (List (Option (ℚ × ℚ))) :=
  .ok [s.geo key member]

/-- Command `GEODIST key a b m`: the distance `dist` of the two positions kept, a nil
reply (hence `redis.ErrNil`) when either member is missing. -/
def Store.geodistReply (dist : ℚ × ℚ → ℚ × ℚ → ℚ) (s : Store) (key : String) (a b : Int) :
    Except RedisErr ℚ :=
  match s.geo key a, s.geo key b with
  | some p, some q => .ok (dist p q)
  | _, _ => .error .errNil

/-- Environment of a `getLocations` request served by the store without connection
failures. -/
def storeEnv (dist : ℚ × ℚ → ℚ × ℚ → ℚ) (s : Store) (now : Int) : LocationEnv where
  now := now
  sort := fun key count => s.sortDesc key count
  geopos := fun _ key member => s.geoposReply key member
  geodist := fun _ key a b => s.geodistReply dist key a b

/-- Rendering `%v` of a driver id: a string as itself, a Go integer in decimal, nil as
`<nil>`; the rendering of a float64 is the parameter `fmtFloat`. -/
def sprintV (fmtFloat : ℚ → String) : JValue → String
  | .str s => s
  | .int n => toString n
  | .int64 n => toString n
  | .num f => fmtFloat f
  | .bool b => toString b
  | .null => "<nil>"
  | .arr _ => "[]"
  | .obj _ => "map[]"

/-- Outcome of the connection and of the three `conn.Do` writes of one
`persistMessageToRedis` call: `none` is success. -/
structure WriteEnv where
  connErr : Option RedisErr
  onCourseErr : Option RedisErr
  logErr : Option RedisErr
  timestampsErr : Option RedisErr

/-- Error returned by `persistMessageToRedis`: the connection error, or the collected
write errors. -/
inductive PersistErr where
  | conn (err : RedisErr)
  | writes (writeErrors : List RedisErr)
  deriving DecidableEq

/-- Source `persistMessageToRedis`: the store after the call and the returned error;
`none` is a panic of a failed type assertion. A write that reports an error is taken to
have left the store as it was. -/
def persistMessageToRedis (fmtFloat : ℚ → String) (w : WriteEnv) (s : Store)
    (message : JObject) : Option (Store × Option PersistErr) :=
  match w.connErr with
  | some err => some (s, some (.conn err))
  | none =>
    match message.lookup "timestamp", message.lookup "latitude", message.lookup "longitude" with
    | some (.int64 timestamp), some (.num latitude), some (.num longitude) =>
      let id := sprintV fmtFloat ((message.lookup "driverId").getD .null)
      let writeErrors : List RedisErr := []
      let (s1, writeErrors) := match w.onCourseErr with
        | none => (s.geoaddOnCourse longitude latitude id, writeErrors)
        | some err => (s, writeErrors ++ [err])
      let (s2, writeErrors) := match w.logErr with
        | none => (s1.geoadd (logKey id) longitude latitude timestamp, writeErrors)
        | some err => (s1, writeErrors ++ [err])
      let (s3, writeErrors) := match w.timestampsErr with
        | none => (s2.sadd (timestampsKey id) timestamp, writeErrors)
        | some err => (s2, writeErrors ++ [err])
      if writeErrors.length > 0 then some (s3, some (.writes writeErrors))
      else some (s3, none)
    | _, _, _ => none

/-! ## driver-location service: the ingest path -/

/-- Result of `reflect.TypeOf(v).String()` for a non-nil dynamic value. -/
def typeName : JValue → String
  | .null => "<nil>"
  | .bool _ => "bool"
  | .num _ => "float64"
  | .str _ => "string"
  | .arr _ => "[]interface {}"
  | .obj _ => "map[string]interface {}"
  | .int _ => "int"
  | .int64 _ => "int64"

/-- Test `v == nil` on a dynamic value. -/
def isNil : JValue → Bool
  | .null => true
  | _ => false

/-- Test `v == ""` on a dynamic value: true for the empty string only. -/
def isEmptyString : JValue → Bool
  | .str s => s = ""
  | _ => false

/-- Source `validateInput`. The two assertions `.(float64)` of step 4 come after the type
test of step 3 and cannot fail. -/
def validateInput (input : JObject) : Bool :=
  match input.lookup "longitude", input.lookup "latitude", input.lookup "driverId" with
  | some longitude, some latitude, some id =>
    if isNil id ∨ isNil latitude ∨ isNil longitude then false
    else if typeName longitude ≠ "float64" ∨ typeName latitude ≠ "float64" then false
    else if ¬ (typeName id = "string" ∨ typeName id = "float64" ∨ typeName id = "int") then
      false
    else
      match longitude, latitude with
      | .num lon, .num lat =>
        if lon > 180 ∨ lon < -180 ∨ lat > 85.05112878 ∨ lat < -85.05112878
            ∨ isEmptyString id then false
        else true
      | _, _ => false
  | _, _, _ => false

/-- Map assignment `m[key] = v`: the new binding is read first by `List.lookup`. -/
def setKey (m : JObject) (key : String) (v : JValue) : JObject := (key, v) :: m

/-- Source `handleMessage`. `decoded` is the outcome of
`json.Unmarshal(m.Body, &parsedMessage)`, `none` for an error, and `nanos` is
`m.Timestamp`. The result is the store after the call and the returned error; `none` is
a panic. -/
def handleMessage (fmtFloat : ℚ → String) (w : WriteEnv) (s : Store)
    (decoded : Option JObject) (nanos : Int) : Option (Store × Option PersistErr) :=
  let timestamp := nanos.tdiv 1000000000
  match decoded with
  | none => some (s, none)
  | some parsedMessage =>
    if !validateInput parsedMessage then some (s, none)
    else
      match persistMessageToRedis fmtFloat w s
          (setKey parsedMessage "timestamp" (.int64 timestamp)) with
      | none => none
      | some (s1, _) => some (s1, none)

/-- Effect of one sub-write on the store: applied when the write reports no error. -/
def applyWrite (outcome : Option RedisErr) (write : Store → Store) (s : Store) : Store :=
  match outcome with
  | none => write s
  | some _ => s

/-! ## zombie-driver service: the endpoint -/

/-- Lines 303-323 of `zombieDetector`: the map `response` built from the driver id and the
result of `isZombie`. -/
def detectorResponse (id : String) (zombie : Bool) (statusCode : Nat) : JObject :=
  if statusCode ≠ 200 then
    if statusCode = 404 then [("id", .str id), ("message", .str "Driver not found")]
    else [("id", .str id), ("message", .str "An error occurred")]
  else [("id", .str id), ("zombie", .bool zombie)]

/-- Source `zombieDetector`: the status and the map handed to `c.IndentedJSON`. -/
def zombieDetector (env : ZombieEnv) (id : String) : Nat × JObject :=
  let zombie := (isZombie env id).1
  let statusCode := (isZombie env id).2
  (statusCode, detectorResponse id zombie statusCode)

/-! ## gateway service -/

/-- Request body as `nsqHandler` meets it: `ioutil.ReadAll` fails, `json.Unmarshal` into a
`map[string]interface{}` fails, or the decoded map. -/
inductive RequestBody where
  | unreadable (err : String)
  | undecodable
  | decoded (parsedBody : JObject)

/-- Outcome of `http.Post` to the NSQ service followed by `ioutil.ReadAll` of its answer. -/
inductive PostResult where
  | failed
  | answered (readable : Bool)

/-- Environment of one `nsqHandler` request. -/
structure GatewayEnv where
  /-- Whether `json.MarshalIndent(messagePayload, "", "  ")` returns an error. -/
  marshalFails : Bool
  /-- Outcome of posting the message payload. -/
  post : JObject → PostResult

/-- Source `nsqHandler`: the status and text sent back with `c.String`, and the message
payloads handed to `http.Post`. -/
def nsqHandler (env : GatewayEnv) (id : String) (body : RequestBody) :
    (Nat × String) × List JObject :=
  match body with
  | .unreadable err => ((400, "Body is wrongly formatted. " ++ err), [])
  | .undecodable => ((400, "Body is not a JSON."), [])
  | .decoded parsedBody =>
    match parsedBody.lookup "longitude", parsedBody.lookup "latitude" with
    | some longitude, some latitude =>
      match longitude with
      | .num lon =>
        match latitude with
        | .num lat =>
          let messagePayload : JObject :=
            [("driverId", .str id), ("longitude", .num lon), ("latitude", .num lat)]
          if env.marshalFails then ((500, "Ooops. Something went wrong on our side."), [])
          else
            match env.post messagePayload with
            | .failed => ((502, "Ooops. Something went wrong on our side."), [messagePayload])
            | .answered false =>
              ((502, "Ooops. Something went wrong on our side."), [messagePayload])
            | .answered true => ((200, "Got data!"), [messagePayload])
        | _ => ((400, "Latitude is not a number"), [])
      | _ => ((400, "Longitude is not a number"), [])
    | _, _ => ((400, "Missing latitude/longitude"), [])

/-! ## Concrete inputs -/

/-- Classification environment: the threshold key `zombie-mdc` holds `m`, the elapse key
is unset, and the location service answers 200 with one sample whose `cumulativeDistance`
is `d`. -/
def boundaryEnv (d m : ℚ) : ZombieEnv where
  getFloat := fun key => if key = ZMDCKey then .ok m else .error .errNil
  httpGet := fun _ _ => .response 200 (.decoded [[("latitude", .num 48.864193),
    ("longitude", .num 2.364988), ("updated_at", .str "2018-10-18T08:12:51Z"),
    ("elapsedDistance", .num 0), ("cumulativeDistance", .num d)]])
  geodist := fun _ _ _ _ => .error .errNil

/-- Classification environment whose location service cannot be reached. -/
def unreachableEnv : ZombieEnv where
  getFloat := fun _ => .error .errNil
  httpGet := fun _ _ => .failed
  geodist := fun _ _ _ _ => .error .errNil

/-- Classification environment whose location service answers 200 with two samples that
carry no `cumulativeDistance`, the store knowing the distance `leg` between them when
`known` is set. -/
def recomputeEnv (known : Bool) (leg : ℚ) : ZombieEnv where
  getFloat := fun _ => .error .errNil
  httpGet := fun _ _ => .response 200 (.decoded [
    [("latitude", .num 48.864193), ("longitude", .num 2.365988),
      ("updated_at", .str "2018-10-18T08:12:21Z")],
    [("latitude", .num 48.864193), ("longitude", .num 2.364988),
      ("updated_at", .str "2018-10-18T08:12:51Z")]])
  geodist := fun _ _ _ _ => if known then .ok leg else .error .errNil

/-! ## Chronological reading of the response loop -/

/-- Step distance `delta` of the record emitted at loop index `i` for `timestamp`, `prev`
being the entry handled at index `i - 1`: 0 at index 0, the `GEODIST` reply otherwise, 0
when that reply is an error. -/
def stepDelta (env : LocationEnv) (id : String) (i : Nat) (timestamp prev : Int) : ℚ :=
  if i = 0 then 0
  else
    match env.geodist i (logKey id) timestamp prev with
    | .ok d => d
    | .error _ => 0

/-- The element `newElement` built for a found position. -/
def mkRecord (wantsDistance : Bool) (lon lat : ℚ) (timestamp : Int) (delta total1 : ℚ) :
    Record :=
  if wantsDistance then
    ⟨floor6 lat, floor6 lon, timestampAsISO timestamp, some (floor3 delta), some (floor3 total1)⟩
  else ⟨floor6 lat, floor6 lon, timestampAsISO timestamp, none, none⟩

/-- The response loop read along the reversed (oldest first) eligible list: `i` is the loop
index of the head of the list and `prev` the entry handled at index `i - 1`. -/
def walk (env : LocationEnv) (id : String) (wantsDistance : Bool) :
    Nat → Int → List Int → ℚ → List Record → Option (List Record)
  | _, _, [], _, response => some response
  | i, prev, timestamp :: rest, total, response =>
    match env.geopos i (logKey id) timestamp with
    | .error _ => walk env id wantsDistance (i + 1) timestamp rest total response
    | .ok [] => none
    | .ok (none :: _) => none
    | .ok (some (lon, lat) :: _) =>
      let delta := if wantsDistance then stepDelta env id i timestamp prev else 0
      walk env id wantsDistance (i + 1) timestamp rest (total + delta)
        (response ++ [mkRecord wantsDistance lon lat timestamp delta (total + delta)])

/-- Environment in which the position lookup made at loop index `i` for `timestamp` either
fails with an error or yields the position `lookup i timestamp`. -/
def LocationEnv.withLookups (env : LocationEnv)
    (lookup : Nat → Int → Except RedisErr (ℚ × ℚ)) : LocationEnv :=
  { env with geopos := fun i _ timestamp =>
      match lookup i timestamp with
      | .ok p => .ok [some p]
      | .error err => .error err }

/-- The entries of an oldest-first list whose position lookup succeeded, with the position
found, the head of the list being looked up at loop index `i`. -/
def succeeded (lookup : Nat → Int → Except RedisErr (ℚ × ℚ)) :
    Nat → List Int → List (Int × (ℚ × ℚ))
  | _, [] => []
  | i, timestamp :: rest =>
    match lookup i timestamp with
    | .ok p => (timestamp, p) :: succeeded lookup (i + 1) rest
    | .error _ => succeeded lookup (i + 1) rest

/-- Latitude, longitude and time of a record. -/
def Record.sample (r : Record) : ℚ × ℚ × String := (r.latitude, r.longitude, r.updated_at)

/-- Latitude, longitude and time reported for a timestamp and its stored
`(longitude, latitude)`. -/
def sampleOf (e : Int × (ℚ × ℚ)) : ℚ × ℚ × String :=
  (floor6 e.2.2, floor6 e.2.1, timestampAsISO e.1)

/-- Query environment at time 1539850371 whose listing holds three timestamps of the last
half minute and one of the day before, every pair of positions being 7 metres apart. -/
def listingEnv : LocationEnv where
  now := 1539850371
  sort := fun _ _ => .ok [1539850361, 1539850351, 1539850341, 1539763971]
  geopos := fun _ _ _ => .ok [some (2.364988, 48.864193)]
  geodist := fun _ _ _ _ => .ok 7

/-- Lookup pattern in which the lookup made at loop index 1 fails and every other one finds
the same position. -/
def skipSecond : Nat → Int → Except RedisErr (ℚ × ℚ) :=
  fun i _ => if i = 1 then .error (.other "timeout") else .ok (2.364988, 48.864193)

/-- Store holding one sample of driver `test001`, written at 1539850361. -/
def oneSampleStore : Store where
  sets := fun key => if key = timestampsKey "test001" then [1539850361] else []
  geo := fun key member =>
    if key = logKey "test001" ∧ member = 1539850361 then some (2.364988, 48.864193) else none
  onCourse := fun member => if member = "test001" then some (2.364988, 48.864193) else none

/-- Store holding one sample of driver `test001` for each of the sixteen seconds
1539850356 .. 1539850371. -/
def fullWindowStore : Store where
  sets := fun key =>
    if key = timestampsKey "test001" then
      (List.range 16).map (fun k => (1539850356 + k : Int))
    else []
  geo := fun key member =>
    if key = logKey "test001" ∧ 1539850356 ≤ member ∧ member ≤ 1539850371 then
      some (2.364988, 48.864193)
    else none
  onCourse := fun member => if member = "test001" then some (2.364988, 48.864193) else none

/-- Untruncated step distances `delta` of the records the walk emits, in order. -/
def emittedDeltas (env : LocationEnv) (id : String) : Nat → Int → List Int → List ℚ
  | _, _, [] => []
  | i, prev, timestamp :: rest =>
    match env.geopos i (logKey id) timestamp with
    | .error _ => emittedDeltas env id (i + 1) timestamp rest
    | .ok (some _ :: _) =>
      stepDelta env id i timestamp prev :: emittedDeltas env id (i + 1) timestamp rest
    | .ok _ => []

/-- Values taken by `total` as the step distances are added one after the other. -/
def runningSums : ℚ → List ℚ → List ℚ
  | _, [] => []
  | total, delta :: rest => (total + delta) :: runningSums (total + delta) rest

/-- Query environment at time 1539850371 with three listed samples 30 seconds apart, every
position found and every pair of positions 0.0006 metres apart. -/
def driftEnv : LocationEnv where
  now := 1539850371
  sort := fun _ _ => .ok [1539850371, 1539850341, 1539850311]
  geopos := fun _ _ _ => .ok [some (2.364988, 48.864193)]
  geodist := fun _ _ _ _ => .ok (6 / 10000)

/-- Query environment at time 1539850371 with two listed samples 30 seconds apart and 100
metres apart, in which the position lookup of the older one (loop index 0) fails. -/
def skipOldestEnv : LocationEnv where
  now := 1539850371
  sort := fun _ _ => .ok [1539850371, 1539850341]
  geopos := fun i _ _ =>
    if i = 0 then .error (.other "timeout") else .ok [some (2.364988, 48.864193)]
  geodist := fun _ _ _ _ => .ok 100

/-- Store without any key. -/
def emptyStore : Store where
  sets := fun _ => []
  geo := fun _ _ => none
  onCourse := fun _ => none

/-- Message map handed to `persistMessageToRedis` for a sample with a string driver id. -/
def sampleMessage (id : String) (ts : Int) (lat lon : ℚ) : JObject :=
  [("driverId", .str id), ("latitude", .num lat), ("longitude", .num lon),
    ("timestamp", .int64 ts)]

/-- Connection and three writes without error. -/
def allOk : WriteEnv := ⟨none, none, none, none⟩

/-- Store after the three writes of a sample. -/
def Store.withSample (s : Store) (id : String) (ts : Int) (lat lon : ℚ) : Store :=
  ((s.geoaddOnCourse lon lat id).geoadd (logKey id) lon lat ts).sadd (timestampsKey id) ts

/-- Store after the three writes of one sample of driver `test001`, at 1539850361, at
latitude and longitude -0.0000015. -/
def southWestStore : Store :=
  emptyStore.withSample "test001" 1539850361 (-3 / 2000000) (-3 / 2000000)

/-- Spec wording "truncated to 6 decimals": the digits after the sixth decimal are dropped,
which rounds towards zero. -/
def trunc6 (x : ℚ) : ℚ :=
  if 0 ≤ x then (⌊x * 1000000⌋ : ℚ) / 1000000 else (⌈x * 1000000⌉ : ℚ) / 1000000

/-- Query environment at time 1539850371 with three listed samples 30 seconds apart, every
position found, in which the distance lookup made at loop index 1 fails and the one made at
loop index 2 answers 100 metres. -/
def legFailEnv : LocationEnv where
  now := 1539850371
  sort := fun _ _ => .ok [1539850371, 1539850341, 1539850311]
  geopos := fun _ _ _ => .ok [some (2.364988, 48.864193)]
  geodist := fun i _ _ _ => if i = 1 then .error .errNil else .ok 100

/-- Pair `(float64, error)` returned by `evaluateDistance`: `return 0, err` at a failed
lookup, `return cumulativeDistance, nil` at the end. -/
def evaluateDistancePair (env : ZombieEnv) (parsedBody : List JObject) (id : String) :
    ℚ × Option RedisErr :=
  match evaluateDistance env parsedBody id with
  | .ok cumulativeDistance => (cumulativeDistance, none)
  | .error err => (0, some err)

/-- Spec wording "sum of DistanceBetween over consecutive pairs": the distances
`dist j ts prev` of each entry to the one before it, the head of the list standing at
index `j` and `prev` before it. -/
def consecutiveSum (dist : Nat → Int → Int → ℚ) : Nat → Int → List Int → ℚ
  | _, _, [] => 0
  | j, prev, ts :: rest => dist j ts prev + consecutiveSum dist (j + 1) ts rest

/-- Classification environment in which the distance lookup at loop index `j` answers
`j` metres, except the one at index `failAt`, if any, which fails with a nil reply. -/
def failAtEnv (failAt : Option Nat) : ZombieEnv where
  getFloat := fun _ => .error .errNil
  httpGet := fun _ _ => .failed
  geodist := fun j _ _ _ => if some j = failAt then .error .errNil else .ok (j : ℚ)

/-- Three samples 30 seconds apart, the third being followed by an entry whose `updated_at`
is a number and by one that has no such field. -/
def threeSamples : List JObject :=
  [[("updated_at", .str "2018-10-18T08:11:51Z")],
   [("longitude", .num 33)],
   [("updated_at", .str "2018-10-18T08:12:21Z")],
   [("updated_at", .num 153232)],
   [("updated_at", .str "2018-10-18T08:12:51Z")]]

/-- Gateway environment in which encoding and posting succeed. -/
def publishingEnv : GatewayEnv where
  marshalFails := false
  post := fun _ => .answered true

/-- Spec wording "filter-all": every timestamp of the listing that is not older than
`now - window`, wherever it stands. -/
def filterWindow (now : Int) (window : ℚ) (l : List Int) : List Int :=
  l.filter (fun timestamp => decide ((timestamp : ℚ) ≥ (now : ℚ) - window))

/-- Query environment at time 1539850371 with three listed samples 30 seconds apart, in
which the position lookup of the middle one (loop index 1) fails. The oldest and the middle
sample are 10 metres apart, the middle and the newest 20 metres, the oldest and the newest
25 metres. -/
def skipMiddleEnv : LocationEnv where
  now := 1539850371
  sort := fun _ _ => .ok [1539850371, 1539850341, 1539850311]
  geopos := fun i _ _ =>
    if i = 1 then .error (.other "timeout") else .ok [some (2.364988, 48.864193)]
  geodist := fun _ _ a b =>
    if a = 1539850341 ∧ b = 1539850311 then .ok 10
    else if a = 1539850371 ∧ b = 1539850341 then .ok 20
    else if a = 1539850371 ∧ b = 1539850311 then .ok 25
    else .error .errNil

/-- Store after a first sample of driver `test001` at 1539850341 whose position-log write
failed while the two other writes succeeded. -/
def halfWrittenStore : Store :=
  (emptyStore.geoaddOnCourse 2.365988 48.864193 "test001").sadd (timestampsKey "test001")
    1539850341

/-- Store after a second sample of driver `test001`, at 1539850361, written in full on top
of the half-written one. -/
def partialStore : Store := halfWrittenStore.withSample "test001" 1539850361 48.864193 2.364988

/-- Classification environment whose distance lookups are answered by the store `s`, the
location service being out of reach. -/
def storeZombieEnv (dist : ℚ × ℚ → ℚ × ℚ → ℚ) (s : Store) : ZombieEnv where
  getFloat := fun _ => .error .errNil
  httpGet := fun _ _ => .failed
  geodist := fun _ key a b => s.geodistReply dist key a b

/-- Store after the writes of two samples of driver `test002`, 30 seconds apart, at the
positions of the source test of `evaluateDistance`. -/
def twoSampleStore : Store :=
  (emptyStore.withSample "test002" 1539850341 48.864193 2.365988).withSample "test002"
    1539850371 48.864193 2.364988

/-- The two samples of `twoSampleStore` as the location service lists them, with an entry
without `updated_at` between them. -/
def twoSamples : List JObject :=
  [[("latitude", .num 48.864193), ("longitude", .num 2.365988),
      ("updated_at", .str "2018-10-18T08:12:21Z")],
   [("longitude", .num 33)],
   [("latitude", .num 48.864193), ("longitude", .num 2.364988),
      ("updated_at", .str "2018-10-18T08:12:51Z")]]

/-- Store after three samples of driver `test001`, 30 seconds apart, the position-log write
of the middle one, at 1539850341, having failed while its two other writes succeeded. -/
def gapStore : Store :=
  (((emptyStore.withSample "test001" 1539850311 48.864193 2.366988).geoaddOnCourse 2.365988
      48.864193 "test001").sadd (timestampsKey "test001") 1539850341).withSample "test001"
    1539850371 48.864193 2.364988

/-! ## Decoding of the body of the location service -/

/-- Body bytes as `json.Unmarshal` meets them: not a JSON text, or the JSON value they
denote. -/
inductive Document where
  | malformed
  | json (v : JValue)

/-- Elements of a JSON array decoded into `map[string]interface{}` values: an object gives
its map, `null` gives the nil map, which has no key, and any other value is a type error. -/
def unmarshalElements : List JValue → Option (List JObject)
  | [] => some []
  | .obj fields :: rest => (unmarshalElements rest).map (fun l => fields :: l)
  | .null :: rest => (unmarshalElements rest).map (fun l => [] :: l)
  | _ :: _ => none

/-- Model of `json.Unmarshal(body, &parsedBody)` with `parsedBody` a
`[]map[string]interface{}`; `none` is a returned error. The value `null` is decoded
without error and leaves the nil slice. -/
def unmarshalSamples : Document → Option (List JObject)
  | .malformed => none
  | .json .null => some []
  | .json (.arr items) => unmarshalElements items
  | .json _ => none

/-- Outcome of `ioutil.ReadAll` followed by `json.Unmarshal` for the bytes read; `none` is
a failed read. -/
def Body.ofRead (read : Option Document) : Body :=
  match read with
  | none => .unreadable
  | some document =>
    match unmarshalSamples document with
    | none => .undecodable
    | some parsedBody => .decoded parsedBody

/-- Spec wording "a JSON array of objects". -/
def isArrayOfObjects : Document → Bool
  | .json (.arr items) => items.all (fun v => match v with | .obj _ => true | _ => false)
  | _ => false

/-- Classification environment without stored thresholds whose location service answers 200
with the given body. -/
def documentEnv (document : Document) : ZombieEnv where
  getFloat := fun _ => .error .errNil
  httpGet := fun _ _ => .response 200 (Body.ofRead (some document))
  geodist := fun _ _ _ _ => .error .errNil

/-! ## Calendar auxiliaries -/

/-- Year of the 400-year era of a day of the era, the expression `yoe` of `civilFromDays`. -/
def yearOfEra (doe : Int) : Int := (doe - doe / 1460 + doe / 36524 - doe / 146096) / 365

/-- First day of the era of a year of the era (eras start on 1 March). -/
def yearStart (yoe : Int) : Int := 365 * yoe + yoe / 4 - yoe / 100

/-- UTC year of a Unix timestamp. -/
def utcYear (ts : Int) : Int := (civilFromDays (ts / 86400)).1

/-! ## Theorems -/

theorem getZombieParams_boundaryEnv (d m : ℚ) : (getZombieParams (boundaryEnv d m)).2 = m := by
  simp [getZombieParams, boundaryEnv, ZMDCKey, ZEKey]

theorem isZombie_boundaryEnv (d m : ℚ) (id : String) :
    isZombie (boundaryEnv d m) id = (decide (d ≤ m), 200) := by
  have h := getZombieParams_boundaryEnv d m
  simp only [isZombie, h]
  simp [boundaryEnv, zombieDistance, List.lookup]

/-- C1: a classification that ends with status 200 took a distance `d` from the decoded
location history and answers true exactly when `d` is at most the threshold
`maxDistanceMeters`; with threshold 500 the distance 500 gives true and 500.001 gives
false. -/
theorem isZombie_true_iff_le (env : ZombieEnv) (id : String)
    (h : (isZombie env id).2 = 200) :
    (∃ parsedBody d,
      env.httpGet id (getZombieParams env).1 = .response 200 (.decoded parsedBody)
      ∧ zombieDistance env parsedBody id = .ok d
      ∧ ((isZombie env id).1 = true ↔ d ≤ (getZombieParams env).2))
    ∧ isZombie (boundaryEnv 500 500) id = (true, 200)
    ∧ isZombie (boundaryEnv (500001 / 1000) 500) id = (false, 200) := by
  refine ⟨?_, ?_, ?_⟩
  · unfold isZombie at h ⊢
    simp only [] at h ⊢
    cases hg : env.httpGet id (getZombieParams env).1 with
    | failed => simp [hg] at h
    | response statusCode body =>
      by_cases hs : statusCode = 200
      · subst hs
        cases body with
        | unreadable => simp [hg] at h
        | undecodable => simp [hg] at h
        | decoded parsedBody =>
          cases hd : zombieDistance env parsedBody id with
          | error e => simp [hg, hd] at h
          | ok d => exact ⟨parsedBody, d, rfl, hd, by simp [hd]⟩
      · simp [hg, hs] at h
  · rw [isZombie_boundaryEnv]; norm_num
  · rw [isZombie_boundaryEnv]; norm_num

/-- Witness of C1 at the boundary environment with distance 500 and threshold 500. -/
theorem isZombie_true_iff_le_witness :
    (isZombie (boundaryEnv 500 500) "test001").2 = 200
    ∧ isZombie (boundaryEnv 500 500) "test001" = (true, 200) :=
  ⟨by rw [isZombie_boundaryEnv],
   (isZombie_true_iff_le (boundaryEnv 500 500) "test001" (by rw [isZombie_boundaryEnv])).2.1⟩

theorem unmarshalElements_eq_none (items : List JValue) :
    unmarshalElements items = none
      ↔ ¬ ∀ e ∈ items, e = JValue.null ∨ ∃ fields, e = JValue.obj fields := by
  induction items with
  | nil => simp [unmarshalElements]
  | cons head rest ih =>
    cases head with
    | null => simp [unmarshalElements, ih]
    | obj fields => simp [unmarshalElements, ih]
    | bool b => simp [unmarshalElements]
    | num f => simp [unmarshalElements]
    | str t => simp [unmarshalElements]
    | arr l => simp [unmarshalElements]
    | int n => simp [unmarshalElements]
    | int64 n => simp [unmarshalElements]

theorem unmarshalSamples_eq_none (document : Document) :
    unmarshalSamples document = none
      ↔ document = .malformed
        ∨ ∃ v, document = .json v ∧ v ≠ JValue.null
            ∧ ¬ ∃ items, v = JValue.arr items
                ∧ ∀ e ∈ items, e = JValue.null ∨ ∃ fields, e = JValue.obj fields := by
  cases document with
  | malformed => simp [unmarshalSamples]
  | json v =>
    cases v with
    | null => simp [unmarshalSamples]
    | arr items => simp [unmarshalSamples, unmarshalElements_eq_none]
    | obj fields => simp [unmarshalSamples]
    | bool b => simp [unmarshalSamples]
    | num f => simp [unmarshalSamples]
    | str t => simp [unmarshalSamples]
    | int n => simp [unmarshalSamples]
    | int64 n => simp [unmarshalSamples]

theorem isZombie_documentEnv_null :
    isZombie (documentEnv (.json .null)) "test001" = (true, 200)
    ∧ isZombie (documentEnv (.json (.arr [.null]))) "test001" = (true, 200) := by
  have hm : ∀ document, (getZombieParams (documentEnv document)).2 = 500 := by
    intro document
    simp [getZombieParams, documentEnv, ZombieMaxDistanceCovered]
  constructor
  · simp only [isZombie, hm]
    simp [documentEnv, Body.ofRead, unmarshalSamples, zombieDistance]
  · simp only [isZombie, hm]
    simp [documentEnv, Body.ofRead, unmarshalSamples, unmarshalElements, zombieDistance,
      evaluateDistance, tsListOf, updatedAtUnix, List.lookup]

/-- C2, in the form the code has: `isZombie` answers true only with status 200; a failed
HTTP request gives `(false, 503)`; an answer with a status other than 200 gives
`(false, status)` with the status unchanged; a body that cannot be read or that
`json.Unmarshal` rejects gives `(false, 500)`. The decoder rejects exactly the bodies that
are not JSON and the JSON values other than `null` and the arrays whose elements are objects
or `null`. Every other body is decoded and classified by its distance: the body `null` is
the empty list and the body `[null]` a list of one object without fields, both of distance
0. -/
theorem isZombie_failure_statuses :
    (∀ (env : ZombieEnv) (id : String), (isZombie env id).1 = true → (isZombie env id).2 = 200)
    ∧ (∀ (env : ZombieEnv) (id : String),
        env.httpGet id (getZombieParams env).1 = .failed → isZombie env id = (false, 503))
    ∧ (∀ (env : ZombieEnv) (id : String) (statusCode : Nat) (body : Body),
        env.httpGet id (getZombieParams env).1 = .response statusCode body →
        statusCode ≠ 200 → isZombie env id = (false, statusCode))
    ∧ (∀ (env : ZombieEnv) (id : String),
        env.httpGet id (getZombieParams env).1 = .response 200 .unreadable
          ∨ env.httpGet id (getZombieParams env).1 = .response 200 .undecodable →
        isZombie env id = (false, 500))
    ∧ (∀ (env : ZombieEnv) (id : String) (read : Option Document),
        env.httpGet id (getZombieParams env).1 = .response 200 (Body.ofRead read) →
        (read = none ∨ ∃ document, read = some document ∧ unmarshalSamples document = none) →
        isZombie env id = (false, 500))
    ∧ (∀ document : Document,
        unmarshalSamples document = none
          ↔ document = .malformed
            ∨ ∃ v, document = .json v ∧ v ≠ JValue.null
                ∧ ¬ ∃ items, v = JValue.arr items
                    ∧ ∀ e ∈ items, e = JValue.null ∨ ∃ fields, e = JValue.obj fields)
    ∧ (∀ (env : ZombieEnv) (id : String) (document : Document) (parsedBody : List JObject),
        env.httpGet id (getZombieParams env).1 = .response 200 (Body.ofRead (some document)) →
        unmarshalSamples document = some parsedBody →
        isZombie env id
          = match zombieDistance env parsedBody id with
            | .error _ => (false, 500)
            | .ok distance => (decide (distance ≤ (getZombieParams env).2), 200))
    ∧ (∀ (env : ZombieEnv) (id : String),
        env.httpGet id (getZombieParams env).1
            = .response 200 (Body.ofRead (some (.json .null)))
          ∨ env.httpGet id (getZombieParams env).1
            = .response 200 (Body.ofRead (some (.json (.arr [.null])))) →
        isZombie env id = (decide ((0 : ℚ) ≤ (getZombieParams env).2), 200)) := by
  refine ⟨?_, ?_, ?_, ?_, ?_, unmarshalSamples_eq_none, ?_, ?_⟩
  · intro env id h
    unfold isZombie at h ⊢
    simp only [] at h ⊢
    cases hg : env.httpGet id (getZombieParams env).1 with
    | failed => simp [hg] at h
    | response statusCode body =>
      by_cases hs : statusCode = 200
      · subst hs
        cases body with
        | unreadable => simp [hg] at h
        | undecodable => simp [hg] at h
        | decoded parsedBody =>
          cases hd : zombieDistance env parsedBody id with
          | error e => simp [hg, hd] at h
          | ok d => simp [hd]
      · simp [hg, hs] at h
  · intro env id hg
    simp [isZombie, hg]
  · intro env id statusCode body hg hs
    simp [isZombie, hg, hs]
  · intro env id hg
    rcases hg with hg | hg <;> simp [isZombie, hg]
  · intro env id read hg hread
    rcases hread with hread | ⟨document, hread, hnone⟩
    · subst hread
      simp [isZombie, hg, Body.ofRead]
    · subst hread
      simp [isZombie, hg, Body.ofRead, hnone]
  · intro env id document parsedBody hg hsome
    simp [isZombie, hg, Body.ofRead, hsome]
  · intro env id hg
    rcases hg with hg | hg
    · simp [isZombie, hg, Body.ofRead, unmarshalSamples, zombieDistance]
    · simp [isZombie, hg, Body.ofRead, unmarshalSamples, unmarshalElements, zombieDistance,
        evaluateDistance, tsListOf, updatedAtUnix, List.lookup]

/-- Witness of C2: the unreachable location service gives `(false, 503)`, and a 200 answer
whose body is the JSON string `"abc"` gives `(false, 500)`. -/
theorem isZombie_failure_statuses_witness :
    (unreachableEnv.httpGet "test001" (getZombieParams unreachableEnv).1 = .failed
      ∧ isZombie unreachableEnv "test001" = (false, 503))
    ∧ (unmarshalSamples (.json (.str "abc")) = none
      ∧ isZombie (documentEnv (.json (.str "abc"))) "test001" = (false, 500)) :=
  ⟨⟨rfl, isZombie_failure_statuses.2.1 unreachableEnv "test001" rfl⟩,
   ⟨rfl, isZombie_failure_statuses.2.2.2.2.1 (documentEnv (.json (.str "abc"))) "test001"
      (some (.json (.str "abc"))) rfl (Or.inr ⟨_, rfl, rfl⟩)⟩⟩

/-- C2 as stated fails: the bodies `null` and `[null]` are not JSON arrays of objects, yet
they are decoded without error, and a 200 answer carrying either of them is classified
`(true, 200)`, not `(false, 500)`. -/
theorem isZombie_null_body_not_rejected :
    isArrayOfObjects (.json .null) = false
    ∧ isZombie (documentEnv (.json .null)) "test001" = (true, 200)
    ∧ isArrayOfObjects (.json (.arr [.null])) = false
    ∧ isZombie (documentEnv (.json (.arr [.null]))) "test001" = (true, 200) :=
  ⟨rfl, isZombie_documentEnv_null.1, rfl, isZombie_documentEnv_null.2⟩

/-- C3: on a 200 answer carrying the sample list `L`, the distance compared against the
threshold is 0 for an empty `L`, the numeric `cumulativeDistance` of the last element when
it has one (whatever the elements before it hold), and otherwise the result of
`evaluateDistance` over the whole of `L`; when that recomputation fails the answer is
`(false, 500)`. -/
theorem isZombie_distance_source (env : ZombieEnv) (id : String) (L : List JObject)
    (h : env.httpGet id (getZombieParams env).1 = .response 200 (.decoded L)) :
    (L = [] → isZombie env id = (decide ((0 : ℚ) ≤ (getZombieParams env).2), 200))
    ∧ (∀ (earlier : List JObject) (last : JObject) (f : ℚ), L = earlier ++ [last] →
        last.lookup "cumulativeDistance" = some (JValue.num f) →
        isZombie env id = (decide (f ≤ (getZombieParams env).2), 200))
    ∧ (∀ (earlier : List JObject) (last : JObject), L = earlier ++ [last] →
        (∀ f : ℚ, last.lookup "cumulativeDistance" ≠ some (JValue.num f)) →
        (∀ d : ℚ, evaluateDistance env L id = .ok d →
          isZombie env id = (decide (d ≤ (getZombieParams env).2), 200))
        ∧ (∀ err : RedisErr, evaluateDistance env L id = .error err →
          isZombie env id = (false, 500))) := by
  refine ⟨?_, ?_, ?_⟩
  · intro hL
    subst hL
    simp [isZombie, h, zombieDistance]
  · intro earlier last f hL hf
    subst hL
    simp [isZombie, h, zombieDistance, hf]
  · intro earlier last hL hf
    subst hL
    have hz : zombieDistance env (earlier ++ [last]) id
        = evaluateDistance env (earlier ++ [last]) id := by
      unfold zombieDistance
      rw [List.getLast?_concat]
      cases hl : last.lookup "cumulativeDistance" with
      | none => simp [hl]
      | some v =>
        cases v with
        | num f => exact absurd hl (hf f)
        | _ => simp [hl]
    constructor
    · intro d hd
      simp [isZombie, h, hz, hd]
    · intro err he
      simp [isZombie, h, hz, he]

theorem evaluateDistance_recomputeEnv (known : Bool) (leg : ℚ) (id : String) :
    evaluateDistance (recomputeEnv known leg)
      [[("latitude", .num 48.864193), ("longitude", .num 2.365988),
        ("updated_at", .str "2018-10-18T08:12:21Z")],
      [("latitude", .num 48.864193), ("longitude", .num 2.364988),
        ("updated_at", .str "2018-10-18T08:12:51Z")]] id
      = if known then .ok (0 + 0 + leg) else .error .errNil := by
  have h1 : parseRFC3339 "2018-10-18T08:12:21Z" = some 1539850341 := by decide
  have h2 : parseRFC3339 "2018-10-18T08:12:51Z" = some 1539850371 := by decide
  cases known <;>
    simp [evaluateDistance, tsListOf, updatedAtUnix, List.lookup, h1, h2, sumDeltas,
      recomputeEnv]

/-- Witness of C3: two samples without `cumulativeDistance`; the recomputed distance 73.4
gives `(true, 200)` and a failing recomputation gives `(false, 500)`. -/
theorem isZombie_distance_source_witness :
    isZombie (recomputeEnv true (367 / 5)) "test002" = (true, 200)
    ∧ isZombie (recomputeEnv false 0) "test002" = (false, 500) := by
  constructor
  · have h := ((isZombie_distance_source (recomputeEnv true (367 / 5)) "test002" _ rfl).2.2
      [[("latitude", .num 48.864193), ("longitude", .num 2.365988),
        ("updated_at", .str "2018-10-18T08:12:21Z")]]
      [("latitude", .num 48.864193), ("longitude", .num 2.364988),
        ("updated_at", .str "2018-10-18T08:12:51Z")] rfl
      (by intro f; simp [List.lookup])).1 (0 + 0 + 367 / 5)
      (by rw [evaluateDistance_recomputeEnv]; rfl)
    rw [h]
    have hm : (getZombieParams (recomputeEnv true (367 / 5))).2 = 500 := by
      simp [getZombieParams, recomputeEnv, ZombieMaxDistanceCovered]
    rw [hm]; norm_num
  · exact ((isZombie_distance_source (recomputeEnv false 0) "test002" _ rfl).2.2
      [[("latitude", .num 48.864193), ("longitude", .num 2.365988),
        ("updated_at", .str "2018-10-18T08:12:21Z")]]
      [("latitude", .num 48.864193), ("longitude", .num 2.364988),
        ("updated_at", .str "2018-10-18T08:12:51Z")] rfl
      (by intro f; simp [List.lookup])).2 .errNil
      (by rw [evaluateDistance_recomputeEnv]; rfl)

/-! ### The response loop walks the eligible list backwards -/

theorem responseLoop_eq_walk (env : LocationEnv) (id : String) (wantsDistance : Bool)
    (elig : List Int) :
    ∀ (n i : Nat) (total : ℚ) (response : List Record), n + i = elig.length →
      responseLoop env id wantsDistance elig n i total response
        = walk env id wantsDistance i (elig.reverse.getD (i - 1) 0) (elig.reverse.drop i)
            total response := by
  intro n
  induction n with
  | zero =>
    intro i total response h
    have hd : elig.reverse.drop i = [] := List.drop_eq_nil_of_le (by simp; omega)
    rw [hd]
    simp [responseLoop, walk]
  | succ n ih =>
    intro i total response h
    have hi : i < elig.reverse.length := by simp; omega
    have hd : elig.reverse.drop i = elig.reverse[i] :: elig.reverse.drop (i + 1) :=
      List.drop_eq_getElem_cons hi
    have hj : elig[elig.length - 1 - i]? = some elig.reverse[i] := by
      rw [← List.getElem?_reverse (by omega), List.getElem?_eq_getElem hi]
    have hprev : elig.reverse.getD (i + 1 - 1) 0 = elig.reverse[i] := by
      rw [Nat.add_sub_cancel]
      exact List.getD_eq_getElem _ 0 hi
    rw [hd]
    unfold responseLoop walk
    simp only [hj]
    cases hg : env.geopos i (logKey id) elig.reverse[i] with
    | error e =>
      simp only []
      rw [ih (i + 1) total response (by omega), hprev]
    | ok reply =>
      cases reply with
      | nil => rfl
      | cons head tail =>
        cases head with
        | none => rfl
        | some p =>
          obtain ⟨lon, lat⟩ := p
          simp only []
          cases wantsDistance with
          | false =>
            simp only [Bool.false_eq_true, if_false, add_zero]
            rw [ih (i + 1) total _ (by omega), hprev]
            simp [mkRecord]
          | true =>
            simp only [if_true]
            by_cases h0 : i = 0
            · subst h0
              simp only [if_true]
              rw [ih 1 _ _ (by omega), hprev]
              simp [mkRecord, stepDelta]
            · simp only [h0, if_false]
              have hj1 : elig[elig.length - 1 - i + 1]? = some (elig.reverse.getD (i - 1) 0) := by
                have hi1 : i - 1 < elig.reverse.length := by omega
                rw [List.getD_eq_getElem _ _ hi1, ← List.getElem?_eq_getElem hi1,
                  List.getElem?_reverse (by simp at hi1; omega)]
                congr 1
                simp at hi
                omega
              simp only [hj1]
              rw [ih (i + 1) _ _ (by omega), hprev]
              simp [mkRecord, stepDelta, h0]

theorem walk_zero_prev (env : LocationEnv) (id : String) (wantsDistance : Bool)
    (prev prev1 : Int) (l : List Int) (total : ℚ) (response : List Record) :
    walk env id wantsDistance 0 prev l total response
      = walk env id wantsDistance 0 prev1 l total response := by
  cases l with
  | nil => simp [walk]
  | cons timestamp rest => simp [walk, stepDelta]

theorem getLocations_eq_walk (env : LocationEnv) (id : String) (minutes : Option ℚ)
    (wantsDistance : Bool) (reply : List Int)
    (hsort : env.sort (timestampsKey id) (minutes.getD DefaultMins * 60) = .ok reply)
    (hne : reply ≠ []) :
    getLocations env id minutes wantsDistance
      = match walk env id wantsDistance 0 0
          (eligibleScan env.now (minutes.getD DefaultMins * 60) reply).reverse 0 [] with
        | none => .panicked
        | some response => .records 200 response := by
  have hlen : reply.length ≠ 0 := by
    intro h; exact hne (List.length_eq_zero.mp h)
  unfold getLocations
  simp only [hsort]
  rw [if_neg hlen]
  rw [responseLoop_eq_walk env id wantsDistance _ _ 0 0 [] (by simp), List.drop_zero,
    walk_zero_prev env id wantsDistance _ 0]

/-! ### Records of the response and eligible timestamps -/

theorem mkRecord_sample (wantsDistance : Bool) (lon lat : ℚ) (timestamp : Int)
    (delta total1 : ℚ) :
    (mkRecord wantsDistance lon lat timestamp delta total1).sample
      = sampleOf (timestamp, (lon, lat)) := by
  cases wantsDistance <;> rfl

theorem walk_withLookups (env : LocationEnv) (id : String) (wantsDistance : Bool)
    (lookup : Nat → Int → Except RedisErr (ℚ × ℚ)) (asc : List Int) :
    ∀ (i : Nat) (prev : Int) (total : ℚ) (response : List Record),
      ∃ R, walk (env.withLookups lookup) id wantsDistance i prev asc total response
          = some (response ++ R)
        ∧ R.map Record.sample = (succeeded lookup i asc).map sampleOf := by
  induction asc with
  | nil =>
    intro i prev total response
    exact ⟨[], by simp [walk], by simp [succeeded]⟩
  | cons timestamp rest ih =>
    intro i prev total response
    cases hl : lookup i timestamp with
    | error e =>
      obtain ⟨R, hR, hs⟩ := ih (i + 1) timestamp total response
      refine ⟨R, ?_, ?_⟩
      · rw [← hR]
        simp [walk, LocationEnv.withLookups, hl]
      · simp [succeeded, hl, hs]
    | ok p =>
      obtain ⟨lon, lat⟩ := p
      let δ : ℚ := if wantsDistance then
        stepDelta (env.withLookups lookup) id i timestamp prev else 0
      let r : Record := mkRecord wantsDistance lon lat timestamp δ (total + δ)
      obtain ⟨R, hR, hs⟩ := ih (i + 1) timestamp (total + δ) (response ++ [r])
      refine ⟨r :: R, ?_, ?_⟩
      · have hg : (env.withLookups lookup).geopos i (logKey id) timestamp
            = .ok [some (lon, lat)] := by
          simp [LocationEnv.withLookups, hl]
        rw [walk, hg]
        simp only []
        rw [hR]
        simp
      · simp [succeeded, hl, hs, r, mkRecord_sample]

theorem eligibleScan_initial (now : Int) (window : ℚ) (l : List Int) :
    eligibleScan now window l <+: l := by
  induction l with
  | nil => simp [eligibleScan]
  | cons t rest ih =>
    unfold eligibleScan
    split
    · exact (List.prefix_cons_inj t).mpr ih
    · exact List.nil_prefix

theorem succeeded_sublist (lookup : Nat → Int → Except RedisErr (ℚ × ℚ)) (asc : List Int) :
    ∀ i : Nat, ((succeeded lookup i asc).map Prod.fst).Sublist asc := by
  induction asc with
  | nil => intro i; simp [succeeded]
  | cons t rest ih =>
    intro i
    cases hl : lookup i t with
    | error e => simpa [succeeded, hl] using (ih (i + 1)).cons t
    | ok p => simpa [succeeded, hl] using (ih (i + 1)).cons₂ t

theorem succeeded_length (lookup : Nat → Int → Except RedisErr (ℚ × ℚ))
    (hall : ∀ i t, ∃ p, lookup i t = .ok p) (asc : List Int) :
    ∀ i : Nat, (succeeded lookup i asc).length = asc.length := by
  induction asc with
  | nil => intro i; simp [succeeded]
  | cons t rest ih =>
    intro i
    obtain ⟨p, hp⟩ := hall i t
    simp [succeeded, hp, ih (i + 1)]

/-- Records when every position lookup either fails with an error or finds a position: for
every listing `reply`, `getLocations` answers 200 as soon as the listing is not empty (an
empty listing is the 404 case and makes no lookup), and the samples of its records are, in
order, those of the eligible timestamps whose lookup succeeded, read in reverse of the
listing order. For a strictly descending listing these timestamps are strictly ascending,
and when no lookup fails there are as many records as eligible timestamps. -/
theorem getLocations_records_of_lookups (env : LocationEnv) (id : String)
    (minutes : Option ℚ) (wantsDistance : Bool)
    (lookup : Nat → Int → Except RedisErr (ℚ × ℚ)) (reply : List Int)
    (hsort : env.sort (timestampsKey id) (minutes.getD DefaultMins * 60) = .ok reply) :
    (reply = [] →
      getLocations (env.withLookups lookup) id minutes wantsDistance
        = .message 404 "Driver not found")
    ∧ (reply ≠ [] →
      ∃ response,
        getLocations (env.withLookups lookup) id minutes wantsDistance = .records 200 response
        ∧ response.map Record.sample
            = (succeeded lookup 0
                (eligibleScan env.now (minutes.getD DefaultMins * 60) reply).reverse).map
              sampleOf
        ∧ (reply.Pairwise (fun a b => a > b) →
            ((succeeded lookup 0
                (eligibleScan env.now (minutes.getD DefaultMins * 60) reply).reverse).map
              Prod.fst).Pairwise (fun a b => a < b))
        ∧ ((∀ i t, ∃ p, lookup i t = .ok p) →
            response.length
              = (eligibleScan env.now (minutes.getD DefaultMins * 60) reply).length)) := by
  have hsort1 : (env.withLookups lookup).sort (timestampsKey id)
      (minutes.getD DefaultMins * 60) = .ok reply := hsort
  constructor
  · intro hnil
    subst hnil
    simp [getLocations, hsort1]
  intro hne
  obtain ⟨R, hR, hs⟩ := walk_withLookups env id wantsDistance lookup
    (eligibleScan env.now (minutes.getD DefaultMins * 60) reply).reverse 0 0 0 []
  refine ⟨R, ?_, hs, ?_, ?_⟩
  · rw [getLocations_eq_walk _ id minutes wantsDistance reply hsort1 hne]
    have hnow : (env.withLookups lookup).now = env.now := rfl
    rw [hnow, hR]
    simp
  · intro hdesc
    have h1 : (eligibleScan env.now (minutes.getD DefaultMins * 60) reply).Pairwise
        (fun a b => a > b) :=
      hdesc.sublist (eligibleScan_initial _ _ _).sublist
    have h2 : (eligibleScan env.now (minutes.getD DefaultMins * 60) reply).reverse.Pairwise
        (fun a b => a < b) := by
      rw [List.pairwise_reverse]
      exact h1
    exact h2.sublist (succeeded_sublist lookup _ 0)
  · intro hall
    have := congrArg List.length hs
    simp only [List.length_map] at this
    rw [this, succeeded_length lookup hall, List.length_reverse]

theorem eligibleScan_listingEnv :
    eligibleScan listingEnv.now ((some (5 : ℚ)).getD DefaultMins * 60)
        [1539850361, 1539850351, 1539850341, 1539763971]
      = [1539850361, 1539850351, 1539850341] := by
  norm_num [eligibleScan, listingEnv]

/-- Example: of the three eligible timestamps the lookup of the middle one (loop index 1)
fails with an error; the answer is 200 and holds the samples of the oldest and of the
newest, in this order. -/
theorem getLocations_records_of_lookups_example :
    ∃ response,
      getLocations (listingEnv.withLookups skipSecond) "test001" (some 5) true
        = .records 200 response
      ∧ response.map Record.sample
          = [sampleOf (1539850341, (2.364988, 48.864193)),
              sampleOf (1539850361, (2.364988, 48.864193))] := by
  obtain ⟨response, h1, h2, _, _⟩ := (getLocations_records_of_lookups listingEnv "test001"
    (some 5) true skipSecond [1539850361, 1539850351, 1539850341, 1539763971] rfl).2 (by simp)
  refine ⟨response, h1, ?_⟩
  rw [h2, eligibleScan_listingEnv]
  simp [succeeded, skipSecond]

/-! ### The listing limit -/

/-- C5 at the failing input: driver `test001` has one stored timestamp, ten seconds before
the query; with `minutes=0` the listing limit is 0, the listing comes back empty and
`getLocations` answers 404 `Driver not found` for a driver the store knows. -/
theorem getLocations_zero_window_known_driver :
    oneSampleStore.sets (timestampsKey "test001") = [1539850361]
    ∧ ∀ dist : ℚ × ℚ → ℚ × ℚ → ℚ,
        getLocations (storeEnv dist oneSampleStore 1539850371) "test001" (some 0) false
          = .message 404 "Driver not found" := by
  refine ⟨by decide, ?_⟩
  intro dist
  have h : (storeEnv dist oneSampleStore 1539850371).sort (timestampsKey "test001")
      ((some (0 : ℚ)).getD DefaultMins * 60) = .ok [] := by
    norm_num [storeEnv, Store.sortDesc]
  unfold getLocations
  simp only [h]
  rfl

/-- C6 at the failing input: sixteen samples, one per second, the last at the second of the
query; with `minutes=0.25` the window is 15 seconds and the listing limit 15, so the sample
at `now - 15`, which passes the test `timestamp >= now - 15`, is not listed: the response
holds the fifteen later samples only. -/
theorem getLocations_limit_cuts_window_edge :
    (1539850356 : Int) ∈ fullWindowStore.sets (timestampsKey "test001")
    ∧ ((1539850356 : Int) : ℚ) ≥ ((1539850371 : Int) : ℚ) - (1 / 4 : ℚ) * 60
    ∧ getLocations (storeEnv (fun _ _ => 0) fullWindowStore 1539850371) "test001"
          (some (1 / 4)) false
        = .records 200 ((List.range 15).map
            (fun k => mkRecord false 2.364988 48.864193 (1539850357 + k) 0 0))
    ∧ timestampAsISO 1539850356 ∉ ((List.range 15).map
        (fun k => mkRecord false 2.364988 48.864193 (1539850357 + k) 0 0)).map
          (fun r => r.updated_at) := by
  refine ⟨by decide, by norm_num, by decide!, by decide⟩

/-! ### Six-decimal positions -/

theorem floor6_bounds (x : ℚ) : floor6 x ≤ x ∧ x < floor6 x + 1 / 1000000 := by
  unfold floor6
  have h1 : ((⌊x * 1000000⌋ : ℤ) : ℚ) ≤ x * 1000000 := Int.floor_le _
  have h2 : x * 1000000 < ((⌊x * 1000000⌋ : ℤ) : ℚ) + 1 := Int.lt_floor_add_one _
  constructor
  · rw [div_le_iff₀ (by norm_num)]
    exact h1
  · have h3 : x * 1000000 < (((⌊x * 1000000⌋ : ℤ) : ℚ) / 1000000 + 1 / 1000000) * 1000000 := by
      have : (((⌊x * 1000000⌋ : ℤ) : ℚ) / 1000000 + 1 / 1000000) * 1000000
          = ((⌊x * 1000000⌋ : ℤ) : ℚ) + 1 := by ring
      rw [this]
      exact h2
    exact lt_of_mul_lt_mul_right h3 (by norm_num)

theorem floor6_nonneg (x : ℚ) (h : 0 ≤ x) : 0 ≤ floor6 x := by
  unfold floor6
  have h1 : (0 : ℤ) ≤ ⌊x * 1000000⌋ := Int.floor_nonneg.mpr (by positivity)
  have h2 : (0 : ℚ) ≤ ((⌊x * 1000000⌋ : ℤ) : ℚ) := by exact_mod_cast h1
  positivity

theorem walk_mem (env : LocationEnv) (id : String) (wantsDistance : Bool) (asc : List Int) :
    ∀ (i : Nat) (prev : Int) (total : ℚ) (response out : List Record),
      walk env id wantsDistance i prev asc total response = some out →
      ∀ r ∈ out, r ∈ response
        ∨ ∃ (k : Nat) (timestamp : Int) (lon lat : ℚ) (tail : List (Option (ℚ × ℚ))),
            asc[k]? = some timestamp
            ∧ env.geopos (i + k) (logKey id) timestamp = .ok (some (lon, lat) :: tail)
            ∧ r.sample = sampleOf (timestamp, (lon, lat)) := by
  induction asc with
  | nil =>
    intro i prev total response out h r hr
    simp only [walk, Option.some.injEq] at h
    subst h
    exact Or.inl hr
  | cons timestamp rest ih =>
    intro i prev total response out h r hr
    have hshift : ∀ (k : Nat) (t : Int) (lon lat : ℚ) (tail : List (Option (ℚ × ℚ))),
        rest[k]? = some t
          ∧ env.geopos (i + 1 + k) (logKey id) t = .ok (some (lon, lat) :: tail)
          ∧ r.sample = sampleOf (t, (lon, lat)) →
        ∃ (k : Nat) (t : Int) (lon lat : ℚ) (tail : List (Option (ℚ × ℚ))),
          (timestamp :: rest)[k]? = some t
          ∧ env.geopos (i + k) (logKey id) t = .ok (some (lon, lat) :: tail)
          ∧ r.sample = sampleOf (t, (lon, lat)) := by
      intro k t lon lat tail hk
      refine ⟨k + 1, t, lon, lat, tail, by simpa using hk.1, ?_, hk.2.2⟩
      have : i + (k + 1) = i + 1 + k := by omega
      rw [this]
      exact hk.2.1
    rw [walk] at h
    cases hg : env.geopos i (logKey id) timestamp with
    | error e =>
      rw [hg] at h
      simp only [] at h
      rcases ih (i + 1) timestamp total response out h r hr with h1 | ⟨k, t, lon, lat, tail, hk⟩
      · exact Or.inl h1
      · exact Or.inr (hshift k t lon lat tail hk)
    | ok reply =>
      rw [hg] at h
      cases reply with
      | nil => simp at h
      | cons head tail0 =>
        cases head with
        | none => simp at h
        | some p =>
          obtain ⟨lon0, lat0⟩ := p
          simp only [] at h
          rcases ih (i + 1) timestamp _ _ out h r hr with h1 | ⟨k, t, lon, lat, tail, hk⟩
          · rcases List.mem_append.mp h1 with h2 | h2
            · exact Or.inl h2
            · right
              refine ⟨0, timestamp, lon0, lat0, tail0, by simp, by simpa using hg, ?_⟩
              rw [List.mem_singleton] at h2
              rw [h2, mkRecord_sample]
          · exact Or.inr (hshift k t lon lat tail hk)

/-- C8, in the form the code has: every record of a `getLocations` response comes from a
position lookup that found a position, and each of its two coordinates is reported as
`v = math.Floor(x*1e6)/1e6`, `x` being the latitude, respectively the longitude, the store
gave for the sample. `v` is an integer multiple of 10^-6 with `v <= x < v + 10^-6`, the
rounding being towards minus infinity. For `x >= 0` this is truncation,
`|v| <= |x| < |v| + 10^-6`; for `x < 0` the reported value is negative and
`|x| <= |v| < |x| + 10^-6`. -/
theorem getLocations_reports_floor6 (env : LocationEnv) (id : String) (minutes : Option ℚ)
    (wantsDistance : Bool) (status : Nat) (response : List Record)
    (h : getLocations env id minutes wantsDistance = .records status response) :
    ∀ r ∈ response,
      ∃ (i : Nat) (timestamp : Int) (lon lat : ℚ) (tail : List (Option (ℚ × ℚ))),
        env.geopos i (logKey id) timestamp = .ok (some (lon, lat) :: tail)
        ∧ r.updated_at = timestampAsISO timestamp
        ∧ ∀ x v : ℚ, (x = lat ∧ v = r.latitude) ∨ (x = lon ∧ v = r.longitude) →
            v = floor6 x
            ∧ (∃ k : ℤ, v = (k : ℚ) / 1000000)
            ∧ v ≤ x ∧ x < v + 1 / 1000000
            ∧ (0 ≤ x → 0 ≤ v ∧ |v| ≤ |x| ∧ |x| < |v| + 1 / 1000000)
            ∧ (x < 0 → v < 0 ∧ |x| ≤ |v| ∧ |v| < |x| + 1 / 1000000) := by
  have hfloor : ∀ x : ℚ,
      (∃ k : ℤ, floor6 x = (k : ℚ) / 1000000)
      ∧ floor6 x ≤ x ∧ x < floor6 x + 1 / 1000000
      ∧ (0 ≤ x → 0 ≤ floor6 x ∧ |floor6 x| ≤ |x| ∧ |x| < |floor6 x| + 1 / 1000000)
      ∧ (x < 0 → floor6 x < 0 ∧ |x| ≤ |floor6 x| ∧ |floor6 x| < |x| + 1 / 1000000) := by
    intro x
    obtain ⟨hle, hlt⟩ := floor6_bounds x
    refine ⟨⟨⌊x * 1000000⌋, rfl⟩, hle, hlt, ?_, ?_⟩
    · intro h0
      have hv := floor6_nonneg x h0
      rw [abs_of_nonneg hv, abs_of_nonneg h0]
      exact ⟨hv, hle, hlt⟩
    · intro hneg
      have hv : floor6 x < 0 := lt_of_le_of_lt hle hneg
      rw [abs_of_neg hv, abs_of_neg hneg]
      refine ⟨hv, by linarith, by linarith⟩
  cases hs : env.sort (timestampsKey id) (minutes.getD DefaultMins * 60) with
  | error e => simp [getLocations, hs] at h
  | ok reply =>
    by_cases hne : reply = []
    · subst hne
      simp [getLocations, hs] at h
    · rw [getLocations_eq_walk env id minutes wantsDistance reply hs hne] at h
      cases hw : walk env id wantsDistance 0 0
          (eligibleScan env.now (minutes.getD DefaultMins * 60) reply).reverse 0 [] with
      | none => simp [hw] at h
      | some out =>
        simp only [hw, Reply.records.injEq] at h
        obtain ⟨_, hout⟩ := h
        subst hout
        intro r hr
        rcases walk_mem env id wantsDistance _ 0 0 0 [] out hw r hr with h1 | h1
        · simp at h1
        · obtain ⟨k, timestamp, lon, lat, tail, _, hg, hsample⟩ := h1
          simp only [Record.sample, sampleOf, Prod.mk.injEq] at hsample
          obtain ⟨hlat, hlon, hts⟩ := hsample
          refine ⟨0 + k, timestamp, lon, lat, tail, hg, hts, ?_⟩
          intro x v hxv
          rcases hxv with ⟨hx, hv⟩ | ⟨hx, hv⟩
          · subst hx
            rw [hv, hlat]
            exact ⟨rfl, hfloor x⟩
          · subst hx
            rw [hv, hlon]
            exact ⟨rfl, hfloor x⟩

theorem getLocations_southWestStore :
    getLocations (storeEnv (fun _ _ => 0) southWestStore 1539850371) "test001" (some 5) false
      = .records 200 [⟨-2 / 1000000, -3 / 1000000, "2018-10-18T08:12:41Z", none, none⟩] := by
  decide!

/-- Witness of C8: the sample written at latitude and longitude -0.0000015 and queried ten
seconds later; the one record of the response comes from a found position and reports the
6-decimal floors of that position. -/
theorem getLocations_reports_floor6_witness :
    getLocations (storeEnv (fun _ _ => 0) southWestStore 1539850371) "test001" (some 5) false
      = .records 200 [⟨-2 / 1000000, -3 / 1000000, "2018-10-18T08:12:41Z", none, none⟩]
    ∧ ∀ r ∈ [(⟨-2 / 1000000, -3 / 1000000, "2018-10-18T08:12:41Z", none, none⟩ : Record)],
      ∃ (i : Nat) (timestamp : Int) (lon lat : ℚ) (tail : List (Option (ℚ × ℚ))),
        (storeEnv (fun _ _ => 0) southWestStore 1539850371).geopos i (logKey "test001")
            timestamp = .ok (some (lon, lat) :: tail)
        ∧ r.updated_at = timestampAsISO timestamp
        ∧ ∀ x v : ℚ, (x = lat ∧ v = r.latitude) ∨ (x = lon ∧ v = r.longitude) →
            v = floor6 x
            ∧ (∃ k : ℤ, v = (k : ℚ) / 1000000)
            ∧ v ≤ x ∧ x < v + 1 / 1000000
            ∧ (0 ≤ x → 0 ≤ v ∧ |v| ≤ |x| ∧ |x| < |v| + 1 / 1000000)
            ∧ (x < 0 → v < 0 ∧ |x| ≤ |v| ∧ |v| < |x| + 1 / 1000000) :=
  ⟨getLocations_southWestStore,
    getLocations_reports_floor6 (storeEnv (fun _ _ => 0) southWestStore 1539850371) "test001"
      (some 5) false 200 _ getLocations_southWestStore⟩

theorem trunc6_southWest :
    trunc6 (-4252556439 / 3355443200000000) = -1 / 1000000 := by
  have h : ⌈(-4252556439 / 3355443200000000 : ℚ) * 1000000⌉ = -1 := by
    rw [Int.ceil_eq_iff]
    norm_num
  unfold trunc6
  rw [if_neg (by norm_num), h]
  norm_num

/-- C8 as stated fails for a negative value: for the sample written at latitude -0.0000015
the store holds the latitude -0.0000012673 (the centre of the geohash cell), which is
reported as -0.000002: larger in magnitude than the stored value, where truncation gives
-0.000001. -/
theorem getLocations_negative_position_not_truncated :
    southWestStore.geo (logKey "test001") 1539850361
      = some (-45 / 16777216, -4252556439 / 3355443200000000)
    ∧ getLocations (storeEnv (fun _ _ => 0) southWestStore 1539850371) "test001" (some 5) false
      = .records 200 [⟨-2 / 1000000, -3 / 1000000, "2018-10-18T08:12:41Z", none, none⟩]
    ∧ ¬ (|(-2 / 1000000 : ℚ)| ≤ |(-4252556439 / 3355443200000000 : ℚ)|)
    ∧ trunc6 (-4252556439 / 3355443200000000) = -1 / 1000000
    ∧ (-2 / 1000000 : ℚ) ≠ -1 / 1000000 := by
  refine ⟨by decide!, getLocations_southWestStore, by norm_num [abs_of_neg], trunc6_southWest,
    by norm_num⟩

/-! ### Distances of the response -/

theorem walk_distances (env : LocationEnv) (id : String) (asc : List Int) :
    ∀ (i : Nat) (prev : Int) (total : ℚ) (response out : List Record),
      walk env id true i prev asc total response = some out →
      ∃ R, out = response ++ R
        ∧ R.map (fun r => r.elapsedDistance)
            = (emittedDeltas env id i prev asc).map (fun d => some (floor3 d))
        ∧ R.map (fun r => r.cumulativeDistance)
            = (runningSums total (emittedDeltas env id i prev asc)).map
                (fun t => some (floor3 t)) := by
  induction asc with
  | nil =>
    intro i prev total response out h
    simp only [walk, Option.some.injEq] at h
    exact ⟨[], by simp [h], by simp [emittedDeltas], by simp [emittedDeltas, runningSums]⟩
  | cons timestamp rest ih =>
    intro i prev total response out h
    rw [walk] at h
    cases hg : env.geopos i (logKey id) timestamp with
    | error e =>
      rw [hg] at h
      simp only [] at h
      obtain ⟨R, h1, h2, h3⟩ := ih (i + 1) timestamp total response out h
      exact ⟨R, h1, by simp [emittedDeltas, hg, h2], by simp [emittedDeltas, hg, h3]⟩
    | ok reply =>
      rw [hg] at h
      cases reply with
      | nil => simp at h
      | cons head tail =>
        cases head with
        | none => simp at h
        | some p =>
          obtain ⟨lon, lat⟩ := p
          simp only [if_true] at h
          obtain ⟨R, h1, h2, h3⟩ := ih (i + 1) timestamp _ _ out h
          refine ⟨_ :: R, by simpa using h1, ?_, ?_⟩
          · simp [emittedDeltas, hg, h2, mkRecord]
          · simp [emittedDeltas, hg, h3, mkRecord, runningSums]

theorem getLocations_records_walk (env : LocationEnv) (id : String) (minutes : Option ℚ)
    (wantsDistance : Bool) (reply : List Int) (response : List Record)
    (hsort : env.sort (timestampsKey id) (minutes.getD DefaultMins * 60) = .ok reply)
    (h : getLocations env id minutes wantsDistance = .records 200 response) :
    walk env id wantsDistance 0 0
      (eligibleScan env.now (minutes.getD DefaultMins * 60) reply).reverse 0 [] = some response := by
  have hne : reply ≠ [] := by
    intro hnil
    subst hnil
    simp [getLocations, hsort] at h
  rw [getLocations_eq_walk env id minutes wantsDistance reply hsort hne] at h
  cases hw : walk env id wantsDistance 0 0
      (eligibleScan env.now (minutes.getD DefaultMins * 60) reply).reverse 0 [] with
  | none => simp [hw] at h
  | some out =>
    simp only [hw, Reply.records.injEq, true_and] at h
    rw [h]

/-- C9, in the form the code has: in a 200 response with distance, the `elapsedDistance`
of the records are the 3-decimal floors of the step distances, and the
`cumulativeDistance` of each record is the 3-decimal floor of the sum of the step
distances themselves up to and including it: the sum is taken first and floored after. -/
theorem cumulativeDistance_floor_of_running_sum (env : LocationEnv) (id : String)
    (minutes : Option ℚ) (reply : List Int) (response : List Record)
    (hsort : env.sort (timestampsKey id) (minutes.getD DefaultMins * 60) = .ok reply)
    (h : getLocations env id minutes true = .records 200 response) :
    response.map (fun r => r.elapsedDistance)
      = (emittedDeltas env id 0 0
          (eligibleScan env.now (minutes.getD DefaultMins * 60) reply).reverse).map
            (fun d => some (floor3 d))
    ∧ response.map (fun r => r.cumulativeDistance)
      = (runningSums 0 (emittedDeltas env id 0 0
          (eligibleScan env.now (minutes.getD DefaultMins * 60) reply).reverse)).map
            (fun t => some (floor3 t)) := by
  have hw := getLocations_records_walk env id minutes true reply response hsort h
  obtain ⟨R, h1, h2, h3⟩ := walk_distances env id _ 0 0 0 [] response hw
  simp only [List.nil_append] at h1
  subst h1
  exact ⟨h2, h3⟩

theorem getLocations_driftEnv :
    getLocations driftEnv "test001" (some 5) true
      = .records 200 [
          ⟨48864193 / 1000000, 2364988 / 1000000, "2018-10-18T08:11:51Z", some 0, some 0⟩,
          ⟨48864193 / 1000000, 2364988 / 1000000, "2018-10-18T08:12:21Z", some 0, some 0⟩,
          ⟨48864193 / 1000000, 2364988 / 1000000, "2018-10-18T08:12:51Z", some 0,
            some (1 / 1000)⟩] := by
  decide!

/-- Witness of C9: with two steps of 0.0006 metres the cumulative distances are the floors
of 0, 0.0006 and 0.0012. -/
theorem cumulativeDistance_floor_of_running_sum_witness :
    ∃ response, getLocations driftEnv "test001" (some 5) true = .records 200 response
      ∧ response.map (fun r => r.cumulativeDistance)
        = [some (floor3 (0 + 0)), some (floor3 (0 + 0 + 6 / 10000)),
            some (floor3 (0 + 0 + 6 / 10000 + 6 / 10000))] := by
  have h := (cumulativeDistance_floor_of_running_sum driftEnv "test001" (some 5)
    [1539850371, 1539850341, 1539850311] _ rfl getLocations_driftEnv).2
  have he : eligibleScan driftEnv.now ((some (5 : ℚ)).getD DefaultMins * 60)
      [1539850371, 1539850341, 1539850311] = [1539850371, 1539850341, 1539850311] := by
    norm_num [eligibleScan, driftEnv]
  rw [he] at h
  refine ⟨_, getLocations_driftEnv, ?_⟩
  rw [h]
  simp [emittedDeltas, runningSums, stepDelta, driftEnv]

/-- C9 as stated fails: with two steps of 0.0006 metres the three `elapsedDistance` values
are 0, 0, 0 while the last `cumulativeDistance` is 0.001, not their sum. -/
theorem cumulativeDistance_not_sum_of_elapsed :
    getLocations driftEnv "test001" (some 5) true
      = .records 200 [
          ⟨48864193 / 1000000, 2364988 / 1000000, "2018-10-18T08:11:51Z", some 0, some 0⟩,
          ⟨48864193 / 1000000, 2364988 / 1000000, "2018-10-18T08:12:21Z", some 0, some 0⟩,
          ⟨48864193 / 1000000, 2364988 / 1000000, "2018-10-18T08:12:51Z", some 0,
            some (1 / 1000)⟩]
    ∧ (1 / 1000 : ℚ) ≠ 0 + 0 + 0 :=
  ⟨getLocations_driftEnv, by norm_num⟩

theorem floor3_zero : floor3 0 = 0 := by
  simp [floor3]

theorem walk_first_record (env : LocationEnv) (id : String) (asc : List Int) :
    ∀ (i : Nat) (prev : Int) (total : ℚ) (r : Record) (rest : List Record),
      walk env id true i prev asc total [] = some (r :: rest) →
      ∃ (k : Nat) (timestamp : Int) (lon lat : ℚ) (tail : List (Option (ℚ × ℚ))),
        asc[k]? = some timestamp
        ∧ (∀ m, m < k → ∃ err, env.geopos (i + m) (logKey id) (asc.getD m 0) = .error err)
        ∧ env.geopos (i + k) (logKey id) timestamp = .ok (some (lon, lat) :: tail)
        ∧ r = mkRecord true lon lat timestamp
            (stepDelta env id (i + k) timestamp ((prev :: asc).getD k 0))
            (total + stepDelta env id (i + k) timestamp ((prev :: asc).getD k 0)) := by
  induction asc with
  | nil =>
    intro i prev total r rest h
    simp [walk] at h
  | cons t rest0 ih =>
    intro i prev total r rest h
    rw [walk] at h
    cases hg : env.geopos i (logKey id) t with
    | error e =>
      rw [hg] at h
      simp only [] at h
      obtain ⟨k, timestamp, lon, lat, tail, hk, hbefore, hfound, hr⟩ := ih (i + 1) t total r rest h
      have hik : i + (k + 1) = i + 1 + k := by omega
      refine ⟨k + 1, timestamp, lon, lat, tail, by simpa using hk, ?_, ?_, ?_⟩
      · intro m hm
        cases m with
        | zero => exact ⟨e, by simpa using hg⟩
        | succ m =>
          obtain ⟨err, herr⟩ := hbefore m (by omega)
          refine ⟨err, ?_⟩
          have : i + (m + 1) = i + 1 + m := by omega
          rw [this]
          simpa using herr
      · rw [hik]
        exact hfound
      · rw [hik]
        simpa using hr
    | ok reply =>
      rw [hg] at h
      cases reply with
      | nil => simp at h
      | cons head tail0 =>
        cases head with
        | none => simp at h
        | some p =>
          obtain ⟨lon0, lat0⟩ := p
          simp only [if_true] at h
          obtain ⟨R, hR, _, _⟩ := walk_distances env id rest0 (i + 1) t _ _ _ h
          simp only [List.nil_append, List.singleton_append, List.cons.injEq] at hR
          refine ⟨0, t, lon0, lat0, tail0, by simp, ?_, by simpa using hg, ?_⟩
          · intro m hm
            omega
          · simpa using hR.1

/-- C10, in the form the code has: in a non-empty 200 response with distance, the first
record is the one of the oldest eligible timestamp whose position lookup found a position
(the position lookups of the eligible timestamps older than it failed), and its
`elapsedDistance` and `cumulativeDistance` are equal. Both are 0 when that timestamp is the
oldest eligible one, at loop index 0. At a later loop index `k` both are the 3-decimal floor
of the distance the store reports between that timestamp and the eligible timestamp handled
at index `k - 1`, and 0 when this distance lookup fails. -/
theorem first_record_of_response (env : LocationEnv) (id : String)
    (minutes : Option ℚ) (reply : List Int) (r : Record) (rest : List Record)
    (hsort : env.sort (timestampsKey id) (minutes.getD DefaultMins * 60) = .ok reply)
    (h : getLocations env id minutes true = .records 200 (r :: rest)) :
    ∃ (k : Nat) (timestamp : Int) (lon lat : ℚ) (tail : List (Option (ℚ × ℚ))),
      (eligibleScan env.now (minutes.getD DefaultMins * 60) reply).reverse[k]? = some timestamp
      ∧ (∀ m, m < k → ∃ err,
          env.geopos m (logKey id)
            ((eligibleScan env.now (minutes.getD DefaultMins * 60) reply).reverse.getD m 0)
            = .error err)
      ∧ env.geopos k (logKey id) timestamp = .ok (some (lon, lat) :: tail)
      ∧ r.updated_at = timestampAsISO timestamp
      ∧ r.elapsedDistance = r.cumulativeDistance
      ∧ (k = 0 → r.elapsedDistance = some 0 ∧ r.cumulativeDistance = some 0)
      ∧ (0 < k →
          (∀ d, env.geodist k (logKey id) timestamp
              ((eligibleScan env.now (minutes.getD DefaultMins * 60) reply).reverse.getD
                (k - 1) 0) = .ok d →
            r.elapsedDistance = some (floor3 d) ∧ r.cumulativeDistance = some (floor3 d))
          ∧ (∀ err, env.geodist k (logKey id) timestamp
              ((eligibleScan env.now (minutes.getD DefaultMins * 60) reply).reverse.getD
                (k - 1) 0) = .error err →
            r.elapsedDistance = some 0 ∧ r.cumulativeDistance = some 0)) := by
  have hw := getLocations_records_walk env id minutes true reply (r :: rest) hsort h
  obtain ⟨k, timestamp, lon, lat, tail, hk, hbefore, hfound, hr⟩ :=
    walk_first_record env id _ 0 0 0 r rest hw
  simp only [Nat.zero_add] at hbefore hfound hr
  refine ⟨k, timestamp, lon, lat, tail, hk, hbefore, hfound, ?_, ?_, ?_, ?_⟩
  · rw [hr]; rfl
  · rw [hr]; simp [mkRecord]
  · intro hk0
    subst hk0
    rw [hr]
    simp [mkRecord, stepDelta, floor3_zero]
  · intro hkpos
    have hprev : ((0 : Int) :: (eligibleScan env.now (minutes.getD DefaultMins * 60)
        reply).reverse).getD k 0
        = (eligibleScan env.now (minutes.getD DefaultMins * 60) reply).reverse.getD (k - 1) 0 := by
      obtain ⟨k1, rfl⟩ : ∃ k1, k = k1 + 1 := ⟨k - 1, by omega⟩
      simp
    have hk0 : k ≠ 0 := by omega
    rw [hprev] at hr
    constructor
    · intro d hd
      rw [hr]
      simp only [mkRecord, stepDelta, if_true, if_neg hk0, hd, zero_add, and_self]
    · intro err he
      rw [hr]
      simp only [mkRecord, stepDelta, if_true, if_neg hk0, he, zero_add, floor3_zero, and_self]

/-- Witness of C10: three samples, every position found; the first record is the one of
the oldest eligible timestamp and has `elapsedDistance` 0 and `cumulativeDistance` 0. -/
theorem first_record_of_response_witness :
    ∃ (k : Nat) (timestamp : Int) (lon lat : ℚ) (tail : List (Option (ℚ × ℚ))),
      (eligibleScan driftEnv.now ((some (5 : ℚ)).getD DefaultMins * 60)
          [1539850371, 1539850341, 1539850311]).reverse[k]? = some timestamp
      ∧ (∀ m, m < k → ∃ err,
          driftEnv.geopos m (logKey "test001")
            ((eligibleScan driftEnv.now ((some (5 : ℚ)).getD DefaultMins * 60)
              [1539850371, 1539850341, 1539850311]).reverse.getD m 0) = .error err)
      ∧ driftEnv.geopos k (logKey "test001") timestamp = .ok (some (lon, lat) :: tail)
      ∧ (⟨48864193 / 1000000, 2364988 / 1000000, "2018-10-18T08:11:51Z", some 0, some 0⟩ :
          Record).updated_at = timestampAsISO timestamp
      ∧ (k = 0 →
          (⟨48864193 / 1000000, 2364988 / 1000000, "2018-10-18T08:11:51Z", some 0, some 0⟩ :
            Record).elapsedDistance = some 0) := by
  obtain ⟨k, timestamp, lon, lat, tail, h1, h2, h3, h4, _, h6, _⟩ :=
    first_record_of_response driftEnv "test001" (some 5)
      [1539850371, 1539850341, 1539850311] _ _ rfl getLocations_driftEnv
  exact ⟨k, timestamp, lon, lat, tail, h1, h2, h3, h4, fun hk => (h6 hk).1⟩

/-- C10 as stated fails: the position lookup of the oldest of two eligible timestamps
fails and the store reports 100 metres between the two; the only record of the response,
hence its first, has `elapsedDistance` 100 and `cumulativeDistance` 100. -/
theorem first_record_nonzero_after_skipped_oldest :
    getLocations skipOldestEnv "test001" (some 5) true
      = .records 200 [
          ⟨48864193 / 1000000, 2364988 / 1000000, "2018-10-18T08:12:51Z", some 100, some 100⟩]
    ∧ (some (100 : ℚ)) ≠ some 0 := by
  refine ⟨by decide!, by norm_num⟩

/-! ### Write path followed by a query -/

theorem walk_all_found (env : LocationEnv) (id : String) (wantsDistance : Bool)
    (pos : Int → ℚ × ℚ) (asc : List Int)
    (hfound : ∀ i, ∀ t ∈ asc, ∃ tail, env.geopos i (logKey id) t = .ok (some (pos t) :: tail)) :
    ∀ (i : Nat) (prev : Int) (total : ℚ) (response : List Record),
      ∃ R, walk env id wantsDistance i prev asc total response = some (response ++ R)
        ∧ R.map Record.sample = asc.map (fun t => sampleOf (t, pos t)) := by
  induction asc with
  | nil =>
    intro i prev total response
    exact ⟨[], by simp [walk], by simp⟩
  | cons timestamp rest ih =>
    intro i prev total response
    obtain ⟨tail, hg⟩ := hfound i timestamp (List.mem_cons_self _ _)
    have hrest : ∀ i, ∀ t ∈ rest, ∃ tail,
        env.geopos i (logKey id) t = .ok (some (pos t) :: tail) :=
      fun i t ht => hfound i t (List.mem_cons_of_mem _ ht)
    let δ : ℚ := if wantsDistance then stepDelta env id i timestamp prev else 0
    let r : Record := mkRecord wantsDistance (pos timestamp).1 (pos timestamp).2 timestamp δ
      (total + δ)
    obtain ⟨R, hR, hs⟩ := ih hrest (i + 1) timestamp (total + δ) (response ++ [r])
    refine ⟨r :: R, ?_, ?_⟩
    · rw [walk, hg]
      simp only []
      rw [hR]
      simp
    · simp [hs, r, mkRecord_sample]

theorem eligibleScan_ge (now : Int) (window : ℚ) (l : List Int) :
    ∀ t ∈ eligibleScan now window l, (t : ℚ) ≥ (now : ℚ) - window := by
  induction l with
  | nil => intro t ht; simp [eligibleScan] at ht
  | cons a rest ih =>
    intro t ht
    unfold eligibleScan at ht
    split at ht
    · rcases List.mem_cons.mp ht with h | h
      · subst h; assumption
      · exact ih t h
    · simp at ht

theorem mem_eligibleScan_of_sorted (now : Int) (window : ℚ) (l : List Int)
    (hsorted : l.Pairwise (fun a b => a ≥ b)) (t : Int) (ht : t ∈ l)
    (hin : (t : ℚ) ≥ (now : ℚ) - window) : t ∈ eligibleScan now window l := by
  induction l with
  | nil => simp at ht
  | cons a rest ih =>
    have ha : (a : ℚ) ≥ (now : ℚ) - window := by
      rcases List.mem_cons.mp ht with h | h
      · subst h; exact hin
      · have : a ≥ t := (List.pairwise_cons.mp hsorted).1 t h
        have : (t : ℚ) ≤ (a : ℚ) := by exact_mod_cast this
        linarith
    unfold eligibleScan
    rw [if_pos ha]
    rcases List.mem_cons.mp ht with h | h
    · subst h; exact List.mem_cons_self _ _
    · exact List.mem_cons_of_mem _ (ih (List.pairwise_cons.mp hsorted).2 h)

theorem mem_take_of_sorted (l : List Int) (hsorted : l.Pairwise (fun a b => a ≥ b)) (t : Int)
    (ht : t ∈ l) :
    ∀ W : Nat, (l.filter (fun a => a > t)).length < W → t ∈ l.take W := by
  induction l with
  | nil => simp at ht
  | cons a rest ih =>
    intro W hW
    cases W with
    | zero => omega
    | succ W =>
      rw [List.take_succ_cons]
      by_cases hat : a = t
      · subst hat; exact List.mem_cons_self _ _
      · have htr : t ∈ rest := by
          rcases List.mem_cons.mp ht with h | h
          · exact absurd h.symm hat
          · exact h
        have hge : a ≥ t := (List.pairwise_cons.mp hsorted).1 t htr
        have hgt : a > t := lt_of_le_of_ne hge (fun h => hat h.symm)
        have hW1 : (rest.filter (fun a => a > t)).length < W := by
          simp only [List.filter_cons, hgt, decide_True, if_true, List.length_cons] at hW
          omega
        exact List.mem_cons_of_mem _ (ih (List.pairwise_cons.mp hsorted).2 htr W hW1)

theorem persist_sampleMessage (fmtFloat : ℚ → String) (s : Store) (id : String) (ts : Int)
    (lat lon : ℚ) :
    persistMessageToRedis fmtFloat allOk s (sampleMessage id ts lat lon)
      = some (s.withSample id ts lat lon, none) := by
  simp [persistMessageToRedis, allOk, sampleMessage, List.lookup, sprintV, Store.withSample]

theorem withSample_sets (s : Store) (id : String) (ts : Int) (lat lon : ℚ) :
    (s.withSample id ts lat lon).sets (timestampsKey id)
      = if ts ∈ s.sets (timestampsKey id) then s.sets (timestampsKey id)
        else ts :: s.sets (timestampsKey id) := by
  simp [Store.withSample, Store.sadd, Store.geoadd, Store.geoaddOnCourse]

theorem withSample_geo (s : Store) (id : String) (ts : Int) (lat lon : ℚ) (t : Int) :
    (s.withSample id ts lat lon).geo (logKey id) t
      = if t = ts then some (geohashCentre lon lat) else s.geo (logKey id) t := by
  simp [Store.withSample, Store.sadd, Store.geoadd, Store.geoaddOnCourse]

theorem sortDesc_whole (s : Store) (key : String) (count : ℚ) (W : Nat)
    (hW : count = (W : ℚ)) (hlt : W < 1000000) :
    s.sortDesc key count
      = .ok (((s.sets key).insertionSort (fun a b => a ≥ b)).take W) := by
  subst hW
  have h1 : ((W : ℚ)).den = 1 := Rat.den_natCast W
  have h2 : ((W : ℚ)).num = (W : ℤ) := Rat.num_natCast W
  unfold Store.sortDesc
  rw [h1, h2]
  have h3 : ¬ ((W : ℤ) < 0) := by omega
  have h4 : (1 = 1 ∧ (-1000000 : ℤ) < (W : ℤ) ∧ (W : ℤ) < 1000000) := ⟨rfl, by omega, by omega⟩
  simp only [h4, if_true, h3, if_false, Int.toNat_ofNat, and_self]

theorem cellCentre_near (min max x : ℚ) (h : min < max) :
    x - (max - min) / 134217728 < cellCentre min max x
    ∧ cellCentre min max x ≤ x + (max - min) / 134217728 := by
  have hpos : 0 < max - min := by linarith
  have h1 : ((⌊(x - min) / (max - min) * 67108864⌋ : ℤ) : ℚ) ≤ (x - min) / (max - min) * 67108864 :=
    Int.floor_le _
  have h2 : (x - min) / (max - min) * 67108864
      < ((⌊(x - min) / (max - min) * 67108864⌋ : ℤ) : ℚ) + 1 := Int.lt_floor_add_one _
  have hx : x = min + (x - min) / (max - min) * 67108864 / 67108864 * (max - min) := by
    field_simp
    ring
  unfold cellCentre
  generalize (x - min) / (max - min) * 67108864 = y at h1 h2 hx
  generalize ((⌊y⌋ : ℤ) : ℚ) = k at h1 h2
  constructor
  · have : (k + 1 / 2 - y) / 67108864 * (max - min) > -(1 / 2) / 67108864 * (max - min) := by
      apply mul_lt_mul_of_pos_right _ hpos
      apply div_lt_div_of_pos_right _ (by norm_num)
      linarith
    linarith
  · have : (k + 1 / 2 - y) / 67108864 * (max - min) ≤ (1 / 2) / 67108864 * (max - min) := by
      apply mul_le_mul_of_nonneg_right _ hpos.le
      apply div_le_div_of_nonneg_right _ (by norm_num)
      linarith
    linarith

/-- C7, in the form the code has: after the three writes of a valid sample with a string
driver id succeed, from any prior store state, a `getLocations` for that driver with a
window of `W` whole seconds (0 < W < 10^6, `now - W <= ts`) answers 200 with a record whose
`updated_at` is the RFC 3339 UTC rendering of `ts`, and whose latitude and longitude are
what the store gives back for the written latitude and longitude, rounded down to 6
decimals: `floor(c*10^6)/10^6` with `c` the centre of the geohash cell of the written
coordinate. The reported latitude `v` lies in `lat - h - 10^-6 < v <= lat + h` with
`h = 85.05112878 / 2^26` and the reported longitude in the same interval around `lon` with
`h = 180 / 2^26`; latitude and longitude are not swapped. This holds provided fewer than `W`
stored timestamps of the driver are later than `ts` and every other stored timestamp inside
the window has a position entry. -/
theorem getLocations_after_persist (fmtFloat : ℚ → String) (dist : ℚ × ℚ → ℚ × ℚ → ℚ)
    (s : Store) (id : String) (ts : Int) (lat lon : ℚ) (now : Int) (minutes : Option ℚ)
    (wantsDistance : Bool) (W : Nat)
    (_hvalid : validateInput (sampleMessage id ts lat lon) = true)
    (hW : minutes.getD DefaultMins * 60 = (W : ℚ)) (hlt : W < 1000000)
    (hin : (ts : ℚ) ≥ (now : ℚ) - (W : ℚ))
    (hcut : ((s.sets (timestampsKey id)).filter (fun t => t > ts)).length < W)
    (hlog : ∀ t ∈ s.sets (timestampsKey id), (t : ℚ) ≥ (now : ℚ) - (W : ℚ) → t ≠ ts →
      ∃ p, s.geo (logKey id) t = some p) :
    ∃ s1, persistMessageToRedis fmtFloat allOk s (sampleMessage id ts lat lon) = some (s1, none)
      ∧ ∃ response, getLocations (storeEnv dist s1 now) id minutes wantsDistance
            = .records 200 response
          ∧ ∃ r ∈ response, r.updated_at = timestampAsISO ts
              ∧ r.latitude = floor6 (cellCentre (-GeoLatMax) GeoLatMax lat)
              ∧ r.longitude = floor6 (cellCentre (-180) 180 lon)
              ∧ (lat - GeoLatMax / 67108864 - 1 / 1000000 < r.latitude
                  ∧ r.latitude ≤ lat + GeoLatMax / 67108864)
              ∧ (lon - 180 / 67108864 - 1 / 1000000 < r.longitude
                  ∧ r.longitude ≤ lon + 180 / 67108864) := by
  refine ⟨s.withSample id ts lat lon, persist_sampleMessage fmtFloat s id ts lat lon, ?_⟩
  -- the listing
  have hmemset : ts ∈ (s.withSample id ts lat lon).sets (timestampsKey id) := by
    rw [withSample_sets]
    split
    · assumption
    · exact List.mem_cons_self _ _
  have hsubset : ∀ t ∈ (s.withSample id ts lat lon).sets (timestampsKey id),
      t = ts ∨ t ∈ s.sets (timestampsKey id) := by
    intro t ht
    rw [withSample_sets] at ht
    split at ht
    · exact Or.inr ht
    · rcases List.mem_cons.mp ht with h | h
      · exact Or.inl h
      · exact Or.inr h
  have hfilter : (((s.withSample id ts lat lon).sets (timestampsKey id)).filter
      (fun t => t > ts)).length < W := by
    rw [withSample_sets]
    split
    · exact hcut
    · simpa [List.filter_cons] using hcut
  have hperm := List.perm_insertionSort (fun a b : Int => a ≥ b)
    ((s.withSample id ts lat lon).sets (timestampsKey id))
  have hsorted : (((s.withSample id ts lat lon).sets (timestampsKey id)).insertionSort
      (fun a b => a ≥ b)).Pairwise (fun a b => a ≥ b) :=
    List.sorted_insertionSort (fun a b : Int => a ≥ b) _
  have hsort : (storeEnv dist (s.withSample id ts lat lon) now).sort (timestampsKey id)
      (minutes.getD DefaultMins * 60)
      = .ok ((((s.withSample id ts lat lon).sets (timestampsKey id)).insertionSort
          (fun a b => a ≥ b)).take W) :=
    sortDesc_whole _ _ _ W hW hlt
  have hmemtake : ts ∈ (((s.withSample id ts lat lon).sets (timestampsKey id)).insertionSort
      (fun a b => a ≥ b)).take W := by
    apply mem_take_of_sorted _ hsorted ts (hperm.mem_iff.mpr hmemset) W
    rw [(hperm.filter _).length_eq]
    exact hfilter
  have hne : (((s.withSample id ts lat lon).sets (timestampsKey id)).insertionSort
      (fun a b => a ≥ b)).take W ≠ [] := List.ne_nil_of_mem hmemtake
  have hmemelig : ts ∈ eligibleScan now (W : ℚ)
      ((((s.withSample id ts lat lon).sets (timestampsKey id)).insertionSort
        (fun a b => a ≥ b)).take W) :=
    mem_eligibleScan_of_sorted now W _ (hsorted.sublist (List.take_sublist _ _)) ts hmemtake hin
  -- every eligible timestamp has a position entry
  have hfound : ∀ i : Nat, ∀ t ∈ (eligibleScan now (W : ℚ)
      ((((s.withSample id ts lat lon).sets (timestampsKey id)).insertionSort
        (fun a b => a ≥ b)).take W)).reverse,
      ∃ tail, (storeEnv dist (s.withSample id ts lat lon) now).geopos i (logKey id) t
        = .ok (some ((fun t => ((s.withSample id ts lat lon).geo (logKey id) t).getD (0, 0)) t)
            :: tail) := by
    intro i t ht
    have ht1 := List.mem_reverse.mp ht
    have hge := eligibleScan_ge now W _ t ht1
    have hts : t ∈ (s.withSample id ts lat lon).sets (timestampsKey id) :=
      hperm.mem_iff.mp (List.mem_of_mem_take ((eligibleScan_initial now W _).subset ht1))
    have hsome : ∃ p, (s.withSample id ts lat lon).geo (logKey id) t = some p := by
      rw [withSample_geo]
      by_cases hEq : t = ts
      · exact ⟨geohashCentre lon lat, by simp [hEq]⟩
      · rcases hsubset t hts with h | h
        · exact absurd h hEq
        · obtain ⟨p, hp⟩ := hlog t h hge hEq
          exact ⟨p, by simp [hEq, hp]⟩
    obtain ⟨p, hp⟩ := hsome
    exact ⟨[], by simp [storeEnv, Store.geoposReply, hp]⟩
  -- the response
  rw [getLocations_eq_walk _ id minutes wantsDistance _ hsort hne]
  have hnow : (storeEnv dist (s.withSample id ts lat lon) now).now = now := rfl
  rw [hnow, hW]
  obtain ⟨R, hR, hs⟩ := walk_all_found (storeEnv dist (s.withSample id ts lat lon) now) id
    wantsDistance _ _ hfound 0 0 0 []
  rw [hR]
  refine ⟨R, by simp, ?_⟩
  have hmemS : sampleOf (ts, ((s.withSample id ts lat lon).geo (logKey id) ts).getD (0, 0))
      ∈ R.map Record.sample := by
    rw [hs]
    exact List.mem_map.mpr ⟨ts, List.mem_reverse.mpr hmemelig, rfl⟩
  obtain ⟨r, hr, hrs⟩ := List.mem_map.mp hmemS
  have hgeo : ((s.withSample id ts lat lon).geo (logKey id) ts).getD (0, 0)
      = geohashCentre lon lat := by
    rw [withSample_geo]; simp
  rw [hgeo] at hrs
  simp only [Record.sample, sampleOf, geohashCentre, Prod.mk.injEq] at hrs
  obtain ⟨hrlat, hrlon, hrts⟩ := hrs
  have hclat := cellCentre_near (-GeoLatMax) GeoLatMax lat (by norm_num [GeoLatMax])
  have hclon := cellCentre_near (-180) 180 lon (by norm_num)
  have hflat := floor6_bounds (cellCentre (-GeoLatMax) GeoLatMax lat)
  have hflon := floor6_bounds (cellCentre (-180) 180 lon)
  rw [← hrlat] at hflat
  rw [← hrlon] at hflon
  refine ⟨r, hr, hrts, hrlat, hrlon, ⟨?_, ?_⟩, ⟨?_, ?_⟩⟩
  · have := hclat.1
    have := hflat.2
    linarith
  · have := hclat.2
    have := hflat.1
    linarith
  · have := hclon.1
    have := hflon.2
    linarith
  · have := hclon.2
    have := hflon.1
    linarith

/-- Witness of C7: first sample of driver `test001`, queried ten seconds later over five
minutes. -/
theorem getLocations_after_persist_witness :
    ∃ s1, persistMessageToRedis (fun _ => "") allOk emptyStore
        (sampleMessage "test001" 1539850361 (48864193 / 1000000) (2364988 / 1000000))
        = some (s1, none)
      ∧ ∃ response, getLocations (storeEnv (fun _ _ => 0) s1 1539850371) "test001" (some 5)
            false = .records 200 response
          ∧ ∃ r ∈ response, r.updated_at = timestampAsISO 1539850361
              ∧ r.latitude = floor6 (cellCentre (-GeoLatMax) GeoLatMax (48864193 / 1000000))
              ∧ r.longitude = floor6 (cellCentre (-180) 180 (2364988 / 1000000))
              ∧ ((48864193 / 1000000 : ℚ) - GeoLatMax / 67108864 - 1 / 1000000 < r.latitude
                  ∧ r.latitude ≤ 48864193 / 1000000 + GeoLatMax / 67108864)
              ∧ ((2364988 / 1000000 : ℚ) - 180 / 67108864 - 1 / 1000000 < r.longitude
                  ∧ r.longitude ≤ 2364988 / 1000000 + 180 / 67108864) :=
  getLocations_after_persist (fun _ => "") (fun _ _ => 0) emptyStore "test001" 1539850361
    (48864193 / 1000000) (2364988 / 1000000) 1539850371 (some 5) false 300
    (by decide!) (by norm_num) (by norm_num) (by norm_num) (by simp [emptyStore])
    (by intro t ht; simp [emptyStore] at ht)

theorem trunc6_fixture : trunc6 (2364988 / 1000000) = 2364988 / 1000000 := by
  decide!

/-- C7 as stated fails: the sample at latitude 48.864193 and longitude 2.364988, written to
an empty store and queried ten seconds later, comes back with longitude 2.364986, the
6-decimal floor of the centre 2.3649868369 of its geohash cell, while the longitude
truncated to 6 decimals is 2.364988. -/
theorem getLocations_after_persist_not_truncated :
    validateInput (sampleMessage "test001" 1539850361 (48864193 / 1000000) (2364988 / 1000000))
      = true
    ∧ persistMessageToRedis (fun _ => "") allOk emptyStore
        (sampleMessage "test001" 1539850361 (48864193 / 1000000) (2364988 / 1000000))
      = some (emptyStore.withSample "test001" 1539850361 (48864193 / 1000000)
          (2364988 / 1000000), none)
    ∧ getLocations (storeEnv (fun _ _ => 0)
          (emptyStore.withSample "test001" 1539850361 (48864193 / 1000000) (2364988 / 1000000))
          1539850371) "test001" (some 5) false
        = .records 200
            [⟨48864193 / 1000000, 2364986 / 1000000, "2018-10-18T08:12:41Z", none, none⟩]
    ∧ trunc6 (2364988 / 1000000) = 2364988 / 1000000
    ∧ (2364986 / 1000000 : ℚ) ≠ 2364988 / 1000000 := by
  refine ⟨by decide!, persist_sampleMessage _ _ _ _ _ _, by decide!, trunc6_fixture,
    by norm_num⟩

/-! ### Sign and growth of the distances -/

theorem floor3_mono {x y : ℚ} (h : x ≤ y) : floor3 x ≤ floor3 y := by
  unfold floor3
  have h1 : ⌊x * 1000⌋ ≤ ⌊y * 1000⌋ := Int.floor_mono (by linarith)
  have h2 : ((⌊x * 1000⌋ : ℤ) : ℚ) ≤ ((⌊y * 1000⌋ : ℤ) : ℚ) := by exact_mod_cast h1
  exact div_le_div_of_nonneg_right h2 (by norm_num)

theorem floor3_nonneg {x : ℚ} (h : 0 ≤ x) : 0 ≤ floor3 x := by
  have := floor3_mono h
  rwa [floor3_zero] at this

theorem stepDelta_nonneg (env : LocationEnv) (id : String)
    (hdist : ∀ i key a b d, env.geodist i key a b = .ok d → 0 ≤ d)
    (i : Nat) (timestamp prev : Int) : 0 ≤ stepDelta env id i timestamp prev := by
  unfold stepDelta
  split
  · exact le_refl 0
  · split
    · next d hd => exact hdist _ _ _ _ d hd
    · exact le_refl 0

theorem emittedDeltas_nonneg (env : LocationEnv) (id : String)
    (hdist : ∀ i key a b d, env.geodist i key a b = .ok d → 0 ≤ d) (asc : List Int) :
    ∀ (i : Nat) (prev : Int), ∀ d ∈ emittedDeltas env id i prev asc, 0 ≤ d := by
  induction asc with
  | nil => intro i prev d hd; simp [emittedDeltas] at hd
  | cons t rest ih =>
    intro i prev d hd
    unfold emittedDeltas at hd
    split at hd
    · exact ih _ _ d hd
    · rcases List.mem_cons.mp hd with h | h
      · rw [h]; exact stepDelta_nonneg env id hdist i t prev
      · exact ih _ _ d h
    · simp at hd

theorem runningSums_ge (ds : List ℚ) (hds : ∀ d ∈ ds, 0 ≤ d) :
    ∀ total : ℚ, ∀ c ∈ runningSums total ds, total ≤ c := by
  induction ds with
  | nil => intro total c hc; simp [runningSums] at hc
  | cons d rest ih =>
    intro total c hc
    have hd : 0 ≤ d := hds d (List.mem_cons_self _ _)
    have hrest : ∀ x ∈ rest, 0 ≤ x := fun x hx => hds x (List.mem_cons_of_mem _ hx)
    simp only [runningSums, List.mem_cons] at hc
    rcases hc with h | h
    · rw [h]; linarith
    · have := ih hrest (total + d) c h
      linarith

theorem runningSums_pairwise (ds : List ℚ) (hds : ∀ d ∈ ds, 0 ≤ d) :
    ∀ total : ℚ, (runningSums total ds).Pairwise (fun a b => a ≤ b) := by
  induction ds with
  | nil => intro total; simp [runningSums]
  | cons d rest ih =>
    intro total
    have hrest : ∀ x ∈ rest, 0 ≤ x := fun x hx => hds x (List.mem_cons_of_mem _ hx)
    simp only [runningSums, List.pairwise_cons]
    exact ⟨fun c hc => runningSums_ge rest hrest (total + d) c hc, ih hrest (total + d)⟩

/-- C11: in a 200 response with distance, when every distance the store returns is
non-negative then, whichever lookups fail, every `elapsedDistance` and every
`cumulativeDistance` is present and non-negative, and the `cumulativeDistance` values never
decrease along the response. -/
theorem distances_nonneg_nondecreasing (env : LocationEnv) (id : String)
    (minutes : Option ℚ) (reply : List Int) (response : List Record)
    (hsort : env.sort (timestampsKey id) (minutes.getD DefaultMins * 60) = .ok reply)
    (h : getLocations env id minutes true = .records 200 response)
    (hdist : ∀ i key a b d, env.geodist i key a b = .ok d → 0 ≤ d) :
    ∃ es cs : List ℚ,
      response.map (fun r => r.elapsedDistance) = es.map some
      ∧ response.map (fun r => r.cumulativeDistance) = cs.map some
      ∧ (∀ e ∈ es, 0 ≤ e) ∧ (∀ c ∈ cs, 0 ≤ c)
      ∧ cs.Pairwise (fun a b => a ≤ b) := by
  have hw := getLocations_records_walk env id minutes true reply response hsort h
  obtain ⟨R, h1, h2, h3⟩ := walk_distances env id _ 0 0 0 [] response hw
  simp only [List.nil_append] at h1
  subst h1
  have hds := emittedDeltas_nonneg env id hdist
    (eligibleScan env.now (minutes.getD DefaultMins * 60) reply).reverse 0 0
  refine ⟨_, _, by rw [h2, List.map_map]; rfl, by rw [h3, List.map_map]; rfl, ?_, ?_, ?_⟩
  · intro e he
    obtain ⟨d, hd, rfl⟩ := List.mem_map.mp he
    exact floor3_nonneg (hds d hd)
  · intro c hc
    obtain ⟨t, ht, rfl⟩ := List.mem_map.mp hc
    exact floor3_nonneg (runningSums_ge _ hds 0 t ht)
  · exact (runningSums_pairwise _ hds 0).map _ (fun _ _ hab => floor3_mono hab)

/-- Witness of C11: three samples with legs of 0.0006 metres. -/
theorem distances_nonneg_nondecreasing_witness :
    ∃ es cs : List ℚ,
      ([
        (⟨48864193 / 1000000, 2364988 / 1000000, "2018-10-18T08:11:51Z", some 0, some 0⟩ :
          Record),
        ⟨48864193 / 1000000, 2364988 / 1000000, "2018-10-18T08:12:21Z", some 0, some 0⟩,
        ⟨48864193 / 1000000, 2364988 / 1000000, "2018-10-18T08:12:51Z", some 0,
          some (1 / 1000)⟩].map (fun r => r.elapsedDistance)) = es.map some
      ∧ ([
        (⟨48864193 / 1000000, 2364988 / 1000000, "2018-10-18T08:11:51Z", some 0, some 0⟩ :
          Record),
        ⟨48864193 / 1000000, 2364988 / 1000000, "2018-10-18T08:12:21Z", some 0, some 0⟩,
        ⟨48864193 / 1000000, 2364988 / 1000000, "2018-10-18T08:12:51Z", some 0,
          some (1 / 1000)⟩].map (fun r => r.cumulativeDistance)) = cs.map some
      ∧ (∀ e ∈ es, 0 ≤ e) ∧ (∀ c ∈ cs, 0 ≤ c)
      ∧ cs.Pairwise (fun a b => a ≤ b) :=
  distances_nonneg_nondecreasing driftEnv "test001" (some 5)
    [1539850371, 1539850341, 1539850311] _ rfl getLocations_driftEnv
    (by
      intro i key a b d hd
      simp only [driftEnv, Except.ok.injEq] at hd
      rw [← hd]; norm_num)

/-- C12: in the response loop with distance, when the distance lookup of a record fails
the record is appended with `elapsedDistance` 0 and with the floor of the unchanged running
total as `cumulativeDistance`, and the loop goes on with the same total; whatever distance
lookups fail, a non-empty listing whose position lookups fail with an error or find a
position is answered 200 with one record per found position. -/
theorem distance_failure_keeps_total :
    (∀ (env : LocationEnv) (id : String) (elig : List Int) (n i : Nat) (total : ℚ)
        (response : List Record) (ts next : Int) (lon lat : ℚ)
        (tail : List (Option (ℚ × ℚ))) (err : RedisErr),
        i ≠ 0 → elig[elig.length - 1 - i]? = some ts →
        elig[elig.length - 1 - i + 1]? = some next →
        env.geopos i (logKey id) ts = .ok (some (lon, lat) :: tail) →
        env.geodist i (logKey id) ts next = .error err →
        responseLoop env id true elig (n + 1) i total response
          = responseLoop env id true elig n (i + 1) total
              (response ++ [⟨floor6 lat, floor6 lon, timestampAsISO ts, some 0,
                some (floor3 total)⟩]))
    ∧ (∀ (env : LocationEnv) (id : String) (minutes : Option ℚ)
        (lookup : Nat → Int → Except RedisErr (ℚ × ℚ)) (reply : List Int),
        env.sort (timestampsKey id) (minutes.getD DefaultMins * 60) = .ok reply →
        reply ≠ [] →
        ∃ response,
          getLocations (env.withLookups lookup) id minutes true = .records 200 response
          ∧ response.length
            = (succeeded lookup 0
                (eligibleScan env.now (minutes.getD DefaultMins * 60) reply).reverse).length) := by
  constructor
  · intro env id elig n i total response ts next lon lat tail err hi hj hj1 hpos hdist
    rw [responseLoop]
    simp only [hj, hpos, hj1, hdist, hi, if_true, if_false, add_zero, floor3_zero]
  · intro env id minutes lookup reply hsort hne
    have hsort1 : (env.withLookups lookup).sort (timestampsKey id)
        (minutes.getD DefaultMins * 60) = .ok reply := hsort
    obtain ⟨R, hR, hs⟩ := walk_withLookups env id true lookup
      (eligibleScan env.now (minutes.getD DefaultMins * 60) reply).reverse 0 0 0 []
    refine ⟨R, ?_, ?_⟩
    · rw [getLocations_eq_walk _ id minutes true reply hsort1 hne]
      have hnow : (env.withLookups lookup).now = env.now := rfl
      rw [hnow, hR]
      simp
    · have := congrArg List.length hs
      simpa using this

/-- Witness of C12: at loop index 1 the distance lookup fails; the record of the middle
sample is appended with `elapsedDistance` 0 and `cumulativeDistance` 0 and the loop goes on
to index 2 with total 0. -/
theorem distance_failure_keeps_total_witness :
    responseLoop legFailEnv "test001" true [1539850371, 1539850341, 1539850311] (1 + 1) 1 0
        [⟨48864193 / 1000000, 2364988 / 1000000, "2018-10-18T08:11:51Z", some 0, some 0⟩]
      = responseLoop legFailEnv "test001" true [1539850371, 1539850341, 1539850311] 1 (1 + 1) 0
          ([⟨48864193 / 1000000, 2364988 / 1000000, "2018-10-18T08:11:51Z", some 0, some 0⟩]
            ++ [⟨floor6 48.864193, floor6 2.364988, timestampAsISO 1539850341, some 0,
              some (floor3 0)⟩]) :=
  distance_failure_keeps_total.1 legFailEnv "test001" [1539850371, 1539850341, 1539850311]
    1 1 0 _ 1539850341 1539850311 2.364988 48.864193 [] .errNil (by decide) rfl rfl rfl rfl

/-! ### The distance aggregator -/

theorem sumDeltas_all_ok (env : ZombieEnv) (id : String) (dist : Nat → Int → Int → ℚ)
    (hok : ∀ j a b, env.geodist j (logKey id) a b = .ok (dist j a b)) (l : List Int) :
    ∀ (j : Nat) (prev : Int) (acc : ℚ),
      sumDeltas env id j prev l acc = .ok (acc + consecutiveSum dist j prev l) := by
  induction l with
  | nil => intro j prev acc; simp [sumDeltas, consecutiveSum]
  | cons ts rest ih =>
    intro j prev acc
    rw [sumDeltas, hok]
    simp only []
    rw [ih, consecutiveSum, add_assoc]

theorem updatedAtUnix_eq_some (jsonEntry : JObject) (t : Int) :
    updatedAtUnix jsonEntry = some t
      ↔ ∃ s, jsonEntry.lookup "updated_at" = some (JValue.str s) ∧ parseRFC3339 s = some t := by
  unfold updatedAtUnix
  cases h : jsonEntry.lookup "updated_at" with
  | none => simp
  | some v => cases v <;> simp

theorem tsListOf_threeSamples :
    tsListOf threeSamples = [1539850311, 1539850341, 1539850371] := by
  decide

theorem sumDeltas_pairs_ok (env : ZombieEnv) (id : String) (dist : Nat → Int → Int → ℚ)
    (l : List Int) :
    ∀ (j : Nat) (prev : Int) (acc : ℚ),
      (∀ k, k < l.length →
        env.geodist (j + k) (logKey id) (l.getD k 0) ((prev :: l).getD k 0)
          = .ok (dist (j + k) (l.getD k 0) ((prev :: l).getD k 0))) →
      sumDeltas env id j prev l acc = .ok (acc + consecutiveSum dist j prev l) := by
  induction l with
  | nil => intro j prev acc _; simp [sumDeltas, consecutiveSum]
  | cons ts rest ih =>
    intro j prev acc hok
    have h0 := hok 0 (by simp)
    simp only [Nat.add_zero, List.getD_cons_zero] at h0
    rw [sumDeltas, h0]
    simp only []
    rw [ih (j + 1) ts _ ?_, consecutiveSum, add_assoc]
    intro k hk
    have h1 := hok (k + 1) (by simpa using hk)
    have : j + (k + 1) = j + 1 + k := by omega
    rw [this] at h1
    simpa using h1

theorem tsListOf_twoSamples : tsListOf twoSamples = [1539850341, 1539850371] := by
  decide

/-- C13: when the distance lookup of every pair of consecutive filtered timestamps succeeds
(these are the lookups the function makes; nothing is assumed of any other lookup),
`evaluateDistance` returns without error the sum of the distances over these pairs; the
filtered list holds, in input order, the timestamps of exactly the entries whose
`updated_at` is there, is a string and parses, and an entry left out lets its neighbours
form a pair. With fewer than two such entries the result is 0 without error, whatever the
store would answer. -/
theorem evaluateDistance_sum_of_pairs :
    (∀ (env : ZombieEnv) (parsedBody : List JObject) (id : String)
        (dist : Nat → Int → Int → ℚ),
        (∀ k, k + 1 < (tsListOf parsedBody).length →
          env.geodist (k + 1) (logKey id) ((tsListOf parsedBody).getD (k + 1) 0)
              ((tsListOf parsedBody).getD k 0)
            = .ok (dist (k + 1) ((tsListOf parsedBody).getD (k + 1) 0)
                ((tsListOf parsedBody).getD k 0))) →
        evaluateDistancePair env parsedBody id
          = (match tsListOf parsedBody with
              | [] => 0
              | ts :: rest => consecutiveSum dist 1 ts rest, none))
    ∧ (∀ parsedBody : List JObject, tsListOf parsedBody = parsedBody.filterMap updatedAtUnix)
    ∧ (∀ (jsonEntry : JObject) (t : Int), updatedAtUnix jsonEntry = some t
        ↔ ∃ s, jsonEntry.lookup "updated_at" = some (JValue.str s)
            ∧ parseRFC3339 s = some t)
    ∧ (∀ (env : ZombieEnv) (parsedBody : List JObject) (id : String),
        (tsListOf parsedBody).length < 2 → evaluateDistancePair env parsedBody id = (0, none)) := by
  refine ⟨?_, fun _ => rfl, updatedAtUnix_eq_some, ?_⟩
  · intro env parsedBody id dist hok
    unfold evaluateDistancePair evaluateDistance
    cases h : tsListOf parsedBody with
    | nil => rfl
    | cons ts rest =>
      rw [h] at hok
      simp only []
      rw [sumDeltas_pairs_ok env id dist rest 1 ts (0 + 0) ?_]
      · simp
      · intro k hk
        have h1 := hok k (by simpa using hk)
        rw [Nat.add_comm 1 k]
        simpa using h1
  · intro env parsedBody id hlen
    unfold evaluateDistancePair evaluateDistance
    cases h : tsListOf parsedBody with
    | nil => rfl
    | cons ts rest =>
      cases rest with
      | nil => simp [sumDeltas]
      | cons ts1 rest1 =>
        rw [h] at hlen
        simp only [List.length_cons] at hlen
        omega

theorem geodist_twoSampleStore (dist : ℚ × ℚ → ℚ × ℚ → ℚ) (j : Nat) :
    (storeZombieEnv dist twoSampleStore).geodist j (logKey "test002") 1539850371 1539850341
      = .ok (dist (geohashCentre 2.364988 48.864193) (geohashCentre 2.365988 48.864193))
    ∧ (storeZombieEnv dist twoSampleStore).geodist j (logKey "test002") 1539850371 1539850311
      = .error .errNil := by
  have g1 : twoSampleStore.geo (logKey "test002") 1539850341
      = some (geohashCentre 2.365988 48.864193) := by decide!
  have g2 : twoSampleStore.geo (logKey "test002") 1539850371
      = some (geohashCentre 2.364988 48.864193) := by decide!
  have g3 : twoSampleStore.geo (logKey "test002") 1539850311 = none := by decide!
  constructor
  · simp only [storeZombieEnv, Store.geodistReply, g2, g1]
  · simp only [storeZombieEnv, Store.geodistReply, g2, g3]

/-- Witness of C13: the store holds the two samples of driver `test002` and reports 73.4
metres between them; of the three listed entries two carry a timestamp, the one lookup made
succeeds and the result is 73.4 without error, while a lookup for a timestamp the store
does not hold fails. -/
theorem evaluateDistance_sum_of_pairs_witness :
    evaluateDistancePair (storeZombieEnv (fun _ _ => 367 / 5) twoSampleStore) twoSamples
        "test002" = (367 / 5 + 0, none)
    ∧ (storeZombieEnv (fun _ _ => 367 / 5) twoSampleStore).geodist 1 (logKey "test002")
        1539850371 1539850311 = .error .errNil := by
  have h := evaluateDistance_sum_of_pairs.1 (storeZombieEnv (fun _ _ => 367 / 5) twoSampleStore)
    twoSamples "test002" (fun _ _ _ => 367 / 5)
    (by
      rw [tsListOf_twoSamples]
      intro k hk
      have hk0 : k = 0 := by
        simp only [List.length_cons, List.length_nil] at hk
        omega
      subst hk0
      exact (geodist_twoSampleStore (fun _ _ => 367 / 5) 1).1)
  rw [tsListOf_twoSamples] at h
  exact ⟨by simpa [consecutiveSum] using h, (geodist_twoSampleStore (fun _ _ => 367 / 5) 1).2⟩

theorem sumDeltas_error_iff (env : ZombieEnv) (id : String) (l : List Int) :
    ∀ (j : Nat) (prev : Int) (acc : ℚ),
      (∃ err, sumDeltas env id j prev l acc = .error err)
        ↔ ∃ k, k < l.length ∧ ∃ err,
            env.geodist (j + k) (logKey id) (l.getD k 0) ((prev :: l).getD k 0) = .error err := by
  induction l with
  | nil => intro j prev acc; simp [sumDeltas]
  | cons ts rest ih =>
    intro j prev acc
    rw [sumDeltas]
    cases hg : env.geodist j (logKey id) ts prev with
    | error e =>
      simp only [Except.error.injEq, exists_eq']
      refine ⟨fun _ => ⟨0, by simp, e, by simpa using hg⟩, fun _ => trivial⟩
    | ok d =>
      simp only []
      rw [ih (j + 1) ts (acc + d)]
      constructor
      · rintro ⟨k, hk, err, he⟩
        refine ⟨k + 1, by simpa using hk, err, ?_⟩
        have : j + (k + 1) = j + 1 + k := by omega
        rw [this]
        simpa using he
      · rintro ⟨k, hk, err, he⟩
        cases k with
        | zero =>
          simp only [Nat.add_zero, List.getD_cons_zero] at he
          rw [hg] at he
          cases he
        | succ k =>
          refine ⟨k, by simpa using hk, err, ?_⟩
          have : j + (k + 1) = j + 1 + k := by omega
          rw [this] at he
          simpa using he

theorem sumDeltas_first_error (env : ZombieEnv) (id : String) (l : List Int) :
    ∀ (j : Nat) (prev : Int) (acc : ℚ) (k : Nat) (err : RedisErr), k < l.length →
      env.geodist (j + k) (logKey id) (l.getD k 0) ((prev :: l).getD k 0) = .error err →
      (∀ m, m < k → ∃ d,
        env.geodist (j + m) (logKey id) (l.getD m 0) ((prev :: l).getD m 0) = .ok d) →
      sumDeltas env id j prev l acc = .error err := by
  induction l with
  | nil => intro j prev acc k err hk; simp at hk
  | cons ts rest ih =>
    intro j prev acc k err hk he hbefore
    rw [sumDeltas]
    cases k with
    | zero =>
      simp only [Nat.add_zero, List.getD_cons_zero] at he
      rw [he]
    | succ k =>
      obtain ⟨d, hd⟩ := hbefore 0 (by omega)
      simp only [Nat.add_zero, List.getD_cons_zero] at hd
      rw [hd]
      simp only []
      apply ih (j + 1) ts (acc + d) k err (by simpa using hk)
      · have : j + (k + 1) = j + 1 + k := by omega
        rw [this] at he
        simpa using he
      · intro m hm
        obtain ⟨d1, hd1⟩ := hbefore (m + 1) (by omega)
        have : j + (m + 1) = j + 1 + m := by omega
        rw [this] at hd1
        exact ⟨d1, by simpa using hd1⟩

/-- C14: `evaluateDistance` returns an error exactly when the distance lookup of some pair
of consecutive filtered timestamps fails; when the pair at index `k + 1` is the first to
fail, the result is total 0 together with the error of that lookup, whatever the lookups
of later pairs would answer and whatever was summed before. -/
theorem evaluateDistance_error_iff_lookup_fails :
    (∀ (env : ZombieEnv) (parsedBody : List JObject) (id : String),
      (∃ err, (evaluateDistancePair env parsedBody id).2 = some err)
        ↔ ∃ k, k + 1 < (tsListOf parsedBody).length ∧ ∃ err,
            env.geodist (k + 1) (logKey id) ((tsListOf parsedBody).getD (k + 1) 0)
              ((tsListOf parsedBody).getD k 0) = .error err)
    ∧ (∀ (env : ZombieEnv) (parsedBody : List JObject) (id : String) (k : Nat)
        (err : RedisErr),
        k + 1 < (tsListOf parsedBody).length →
        env.geodist (k + 1) (logKey id) ((tsListOf parsedBody).getD (k + 1) 0)
          ((tsListOf parsedBody).getD k 0) = .error err →
        (∀ m, m < k → ∃ d,
          env.geodist (m + 1) (logKey id) ((tsListOf parsedBody).getD (m + 1) 0)
            ((tsListOf parsedBody).getD m 0) = .ok d) →
        evaluateDistancePair env parsedBody id = (0, some err)) := by
  constructor
  · intro env parsedBody id
    unfold evaluateDistancePair evaluateDistance
    cases h : tsListOf parsedBody with
    | nil => simp
    | cons ts rest =>
      simp only []
      have hiff := sumDeltas_error_iff env id rest 1 ts (0 + 0)
      constructor
      · rintro ⟨err, he⟩
        have : ∃ err, sumDeltas env id 1 ts rest (0 + 0) = .error err := by
          cases hs : sumDeltas env id 1 ts rest (0 + 0) with
          | ok d => rw [hs] at he; simp at he
          | error e => exact ⟨e, rfl⟩
        obtain ⟨k, hk, err1, hk1⟩ := hiff.mp this
        refine ⟨k, by simpa using hk, err1, ?_⟩
        rw [Nat.add_comm 1 k] at hk1
        simpa using hk1
      · rintro ⟨k, hk, err1, hk1⟩
        have : ∃ err, sumDeltas env id 1 ts rest (0 + 0) = .error err := by
          apply hiff.mpr
          refine ⟨k, by simpa using hk, err1, ?_⟩
          rw [Nat.add_comm 1 k]
          simpa using hk1
        obtain ⟨e, he⟩ := this
        exact ⟨e, by rw [he]⟩
  · intro env parsedBody id k err hk he hbefore
    unfold evaluateDistancePair evaluateDistance
    cases h : tsListOf parsedBody with
    | nil => rw [h] at hk; simp at hk
    | cons ts rest =>
      rw [h] at hk he hbefore
      simp only []
      rw [sumDeltas_first_error env id rest 1 ts (0 + 0) k err (by simpa using hk)
        (by rw [Nat.add_comm 1 k]; simpa using he)
        (by
          intro m hm
          obtain ⟨d, hd⟩ := hbefore m hm
          refine ⟨d, ?_⟩
          rw [Nat.add_comm 1 m]
          simpa using hd)]

/-- Witness of C14: of three timestamps the first pair is 1 metre apart and the lookup of
the second pair fails with a nil reply; the result is 0 with that error. -/
theorem evaluateDistance_error_iff_lookup_fails_witness :
    evaluateDistancePair (failAtEnv (some 2)) threeSamples "test002"
      = (0, some RedisErr.errNil) :=
  evaluateDistance_error_iff_lookup_fails.2 (failAtEnv (some 2)) threeSamples "test002" 1
    .errNil (by rw [tsListOf_threeSamples]; decide) (by simp [failAtEnv])
    (by
      intro m hm
      have : m = 0 := by omega
      subst this
      exact ⟨1, by simp [failAtEnv]⟩)

/-! ### Validation of an ingested message -/

theorem validateInput_of_fields (input : JObject) (longitude latitude id : JValue)
    (h1 : input.lookup "longitude" = some longitude)
    (h2 : input.lookup "latitude" = some latitude)
    (h3 : input.lookup "driverId" = some id) :
    validateInput input = true
      ↔ ∃ lon lat, longitude = .num lon ∧ latitude = .num lat
          ∧ -180 ≤ lon ∧ lon ≤ 180 ∧ -85.05112878 ≤ lat ∧ lat ≤ 85.05112878
          ∧ ((∃ s, id = .str s ∧ s ≠ "") ∨ (∃ f, id = .num f) ∨ (∃ n, id = .int n)) := by
  unfold validateInput
  rw [h1, h2, h3]
  cases longitude with
  | num lon =>
    cases latitude with
    | num lat =>
      cases id <;> simp [isNil, typeName, isEmptyString, not_lt]
      all_goals tauto
    | _ => simp [isNil, typeName]
  | _ => simp [isNil, typeName]

/-- C15: `validateInput` accepts a message map exactly when `longitude`, `latitude` and
`driverId` are present, longitude and latitude are float64 values with
`-180 <= longitude <= 180` and `-85.05112878 <= latitude <= 85.05112878`, and `driverId`
is a non-empty string, a float64 or an int, zero included; two maps that agree on these
three keys get the same verdict. -/
theorem validateInput_iff (input : JObject) :
    (validateInput input = true
      ↔ ∃ lon lat id, input.lookup "longitude" = some (.num lon)
          ∧ input.lookup "latitude" = some (.num lat)
          ∧ input.lookup "driverId" = some id
          ∧ -180 ≤ lon ∧ lon ≤ 180 ∧ -85.05112878 ≤ lat ∧ lat ≤ 85.05112878
          ∧ ((∃ s, id = .str s ∧ s ≠ "") ∨ (∃ f, id = .num f) ∨ (∃ n, id = .int n)))
    ∧ (∀ other : JObject, other.lookup "longitude" = input.lookup "longitude" →
        other.lookup "latitude" = input.lookup "latitude" →
        other.lookup "driverId" = input.lookup "driverId" →
        validateInput other = validateInput input) := by
  constructor
  · cases h1 : input.lookup "longitude" with
    | none => simp [validateInput, h1]
    | some longitude =>
      cases h2 : input.lookup "latitude" with
      | none => simp [validateInput, h1, h2]
      | some latitude =>
        cases h3 : input.lookup "driverId" with
        | none => simp [validateInput, h1, h2, h3]
        | some id =>
          rw [validateInput_of_fields input longitude latitude id h1 h2 h3]
          constructor
          · rintro ⟨lon, lat, rfl, rfl, h⟩
            exact ⟨lon, lat, id, rfl, rfl, rfl, h⟩
          · rintro ⟨lon, lat, id1, hlon, hlat, hid, h⟩
            simp only [Option.some.injEq] at hlon hlat hid
            subst hid
            exact ⟨lon, lat, hlon, hlat, h⟩
  · intro other h1 h2 h3
    unfold validateInput
    rw [h1, h2, h3]

/-- Witness of C15: the message with driver id `aaaa`, latitude 22 and longitude 23.444 is
accepted, next to an entry that plays no part. -/
theorem validateInput_iff_witness :
    validateInput [("speed", .num 12), ("driverId", .str "aaaa"), ("latitude", .num 22),
      ("longitude", .num 23.444)] = true :=
  (validateInput_iff _).1.mpr ⟨23.444, 22, .str "aaaa", rfl, rfl, rfl,
    by norm_num, by norm_num, by norm_num, by norm_num, Or.inl ⟨"aaaa", rfl, by decide⟩⟩

/-! ### Handling of a message -/

theorem validateInput_true_fields (input : JObject) (h : validateInput input = true) :
    ∃ lon lat, input.lookup "longitude" = some (.num lon)
      ∧ input.lookup "latitude" = some (.num lat) := by
  cases h1 : input.lookup "longitude" with
  | none => simp [validateInput, h1] at h
  | some longitude =>
    cases h2 : input.lookup "latitude" with
    | none => simp [validateInput, h1, h2] at h
    | some latitude =>
      cases h3 : input.lookup "driverId" with
      | none => simp [validateInput, h1, h2, h3] at h
      | some id =>
        obtain ⟨lon, lat, hlon, hlat, _⟩ :=
          (validateInput_of_fields input longitude latitude id h1 h2 h3).mp h
        exact ⟨lon, lat, by rw [hlon], by rw [hlat]⟩

theorem persist_validated (fmtFloat : ℚ → String) (w : WriteEnv) (s : Store)
    (input : JObject) (timestamp : Int) (h : validateInput input = true) :
    ∃ r, persistMessageToRedis fmtFloat w s (setKey input "timestamp" (.int64 timestamp))
      = some r := by
  obtain ⟨lon, lat, hlon, hlat⟩ := validateInput_true_fields input h
  have h1 : (setKey input "timestamp" (.int64 timestamp)).lookup "timestamp"
      = some (.int64 timestamp) := by simp [setKey, List.lookup]
  have h2 : (setKey input "timestamp" (.int64 timestamp)).lookup "latitude"
      = some (.num lat) := by
    simp only [setKey, List.lookup_cons]
    rw [show ("latitude" == "timestamp") = false by decide]
    exact hlat
  have h3 : (setKey input "timestamp" (.int64 timestamp)).lookup "longitude"
      = some (.num lon) := by
    simp only [setKey, List.lookup_cons]
    rw [show ("longitude" == "timestamp") = false by decide]
    exact hlon
  unfold persistMessageToRedis
  cases w.connErr with
  | some err => exact ⟨_, rfl⟩
  | none =>
    simp only [h1, h2, h3]
    split <;> exact ⟨_, rfl⟩

/-- C16: `handleMessage` returns nil for every message: when the body does not decode,
when `validateInput` rejects it, when the store write fails and on success. The store is
left as it was when the body does not decode or is rejected, so it changes only for a
decoded body that `validateInput` accepts. -/
theorem handleMessage_returns_nil (fmtFloat : ℚ → String) (w : WriteEnv) (s : Store)
    (decoded : Option JObject) (nanos : Int) :
    ∃ s1, handleMessage fmtFloat w s decoded nanos = some (s1, none)
      ∧ (decoded = none → s1 = s)
      ∧ (∀ parsedMessage, decoded = some parsedMessage →
          validateInput parsedMessage = false → s1 = s)
      ∧ (s1 ≠ s → ∃ parsedMessage, decoded = some parsedMessage
          ∧ validateInput parsedMessage = true) := by
  cases decoded with
  | none =>
    refine ⟨s, rfl, fun _ => rfl, ?_, fun h => absurd rfl h⟩
    intro m hm
    cases hm
  | some parsedMessage =>
    cases hv : validateInput parsedMessage with
    | false =>
      exact ⟨s, by simp [handleMessage, hv], fun _ => rfl, fun _ _ _ => rfl,
        fun h => absurd rfl h⟩
    | true =>
      obtain ⟨r, hr⟩ := persist_validated fmtFloat w s parsedMessage
        (nanos.tdiv 1000000000) hv
      obtain ⟨s1, e⟩ := r
      refine ⟨s1, by simp [handleMessage, hv, hr], ?_, ?_,
        fun _ => ⟨parsedMessage, rfl, hv⟩⟩
      · intro h
        cases h
      · intro m hm hfalse
        simp only [Option.some.injEq] at hm
        subst hm
        rw [hv] at hfalse
        cases hfalse

/-- Witness of C16: a body that does not decode leaves the empty store as it is and the
handler returns nil, also when every store write would fail. -/
theorem handleMessage_returns_nil_witness :
    ∃ s1, handleMessage (fun _ => "")
        ⟨none, some .errNil, some .errNil, some .errNil⟩ emptyStore none 1539850371000000000
      = some (s1, none) ∧ s1 = emptyStore := by
  obtain ⟨s1, h1, h2, _, _⟩ := handleMessage_returns_nil (fun _ => "")
    ⟨none, some .errNil, some .errNil, some .errNil⟩ emptyStore none 1539850371000000000
  exact ⟨s1, h1, h2 rfl⟩

/-! ### The three sub-writes -/

/-- C17: with a usable connection and a well-typed message, `persistMessageToRedis`
leaves the store with exactly the sub-writes that reported no error applied, each one
independently of the two others, and returns the list of the reported errors in the order
on-course, position log, timestamp set; it returns nil exactly when all three
succeeded. -/
theorem persist_applies_each_write (fmtFloat : ℚ → String) (w : WriteEnv) (s : Store)
    (message : JObject) (timestamp : Int) (latitude longitude : ℚ)
    (hconn : w.connErr = none)
    (hts : message.lookup "timestamp" = some (.int64 timestamp))
    (hlat : message.lookup "latitude" = some (.num latitude))
    (hlon : message.lookup "longitude" = some (.num longitude)) :
    ∃ err,
      persistMessageToRedis fmtFloat w s message
        = some (applyWrite w.timestampsErr
            (fun s => s.sadd
              (timestampsKey (sprintV fmtFloat ((message.lookup "driverId").getD .null)))
              timestamp)
            (applyWrite w.logErr
              (fun s => s.geoadd
                (logKey (sprintV fmtFloat ((message.lookup "driverId").getD .null)))
                longitude latitude timestamp)
              (applyWrite w.onCourseErr
                (fun s => s.geoaddOnCourse longitude latitude
                  (sprintV fmtFloat ((message.lookup "driverId").getD .null)))
                s)), err)
      ∧ (err = none ↔ w.onCourseErr = none ∧ w.logErr = none ∧ w.timestampsErr = none)
      ∧ (∀ writeErrors, err = some (.writes writeErrors) →
          writeErrors = [w.onCourseErr, w.logErr, w.timestampsErr].reduceOption)
      ∧ (∀ e, err ≠ some (.conn e)) := by
  unfold persistMessageToRedis
  rw [hconn]
  simp only [hts, hlat, hlon]
  cases h1 : w.onCourseErr <;> cases h2 : w.logErr <;> cases h3 : w.timestampsErr <;>
    simp [applyWrite, List.reduceOption]

/-- Witness of C17: the on-course write fails and the two others succeed; the position log
and the timestamp set of the driver hold the sample and the call returns the one error. -/
theorem persist_applies_each_write_witness :
    ∃ err,
      persistMessageToRedis (fun _ => "") ⟨none, some (.other "timeout"), none, none⟩
          emptyStore (sampleMessage "test001" 1539850361 48.864193 2.364988)
        = some ((emptyStore.geoadd (logKey "test001") 2.364988 48.864193 1539850361).sadd
            (timestampsKey "test001") 1539850361, err)
      ∧ err = some (.writes [.other "timeout"]) := by
  obtain ⟨err, h1, h2, h3, h4⟩ := persist_applies_each_write (fun _ => "")
    ⟨none, some (.other "timeout"), none, none⟩ emptyStore
    (sampleMessage "test001" 1539850361 48.864193 2.364988) 1539850361 48.864193 2.364988
    rfl rfl rfl rfl
  refine ⟨err, ?_, ?_⟩
  · rw [h1]
    rfl
  · cases err with
    | none => simp at h2
    | some e =>
      cases e with
      | conn c => exact absurd rfl (h4 c)
      | writes l => rw [h3 l rfl]; rfl

/-! ### Thresholds -/

/-- C18: each threshold of `getZombieParams` is the value read under its own key,
`zombie-e` for the elapse window and `zombie-mdc` for the maximal distance, when that read
gives a number, and the default, 5 minutes or 500 metres, when the read gives a nil reply
or another error; what is read under one key has no effect on the other threshold. -/
theorem getZombieParams_per_key (env : ZombieEnv) :
    (ZEKey = "zombie-e" ∧ ZMDCKey = "zombie-mdc")
    ∧ (∀ v, env.getFloat "zombie-e" = .ok v → (getZombieParams env).1 = v)
    ∧ (∀ err, env.getFloat "zombie-e" = .error err → (getZombieParams env).1 = 5)
    ∧ (∀ v, env.getFloat "zombie-mdc" = .ok v → (getZombieParams env).2 = v)
    ∧ (∀ err, env.getFloat "zombie-mdc" = .error err → (getZombieParams env).2 = 500)
    ∧ (∀ other : ZombieEnv, other.getFloat "zombie-e" = env.getFloat "zombie-e" →
        (getZombieParams other).1 = (getZombieParams env).1)
    ∧ (∀ other : ZombieEnv, other.getFloat "zombie-mdc" = env.getFloat "zombie-mdc" →
        (getZombieParams other).2 = (getZombieParams env).2) := by
  refine ⟨⟨rfl, rfl⟩, ?_, ?_, ?_, ?_, ?_, ?_⟩
  · intro v h
    simp [getZombieParams, ZEKey, h]
  · intro err h
    simp [getZombieParams, ZEKey, h, ZombieElapse]
  · intro v h
    simp [getZombieParams, ZMDCKey, h]
  · intro err h
    simp [getZombieParams, ZMDCKey, h, ZombieMaxDistanceCovered]
  · intro other h
    simp [getZombieParams, ZEKey, h]
  · intro other h
    simp [getZombieParams, ZMDCKey, h]

/-- Witness of C18: the key `zombie-mdc` holds 750 and the key `zombie-e` is absent; the
thresholds are 5 minutes and 750 metres. -/
theorem getZombieParams_per_key_witness :
    (getZombieParams (boundaryEnv 0 750)).1 = 5 ∧ (getZombieParams (boundaryEnv 0 750)).2 = 750 :=
  ⟨(getZombieParams_per_key (boundaryEnv 0 750)).2.2.1 .errNil (by simp [boundaryEnv, ZMDCKey]),
   (getZombieParams_per_key (boundaryEnv 0 750)).2.2.2.1 750 (by simp [boundaryEnv, ZMDCKey])⟩

/-! ### The classification endpoint -/

/-- C19: `zombieDetector` answers with the status of `isZombie` and a body built from the
requested id and that result; for every boolean and status the body carries the id, it
carries the `zombie` field, equal to the boolean, and no message exactly when the status is
200, the message `Driver not found` exactly when the status is 404, and the message
`An error occurred` for every other status. -/
theorem zombieDetector_response (id : String) (zombie : Bool) (statusCode : Nat) :
    (∀ env : ZombieEnv, zombieDetector env id
        = ((isZombie env id).2, detectorResponse id (isZombie env id).1 (isZombie env id).2))
    ∧ (detectorResponse id zombie statusCode).lookup "id" = some (.str id)
    ∧ (statusCode = 200 →
        (detectorResponse id zombie statusCode).lookup "zombie" = some (.bool zombie)
        ∧ (detectorResponse id zombie statusCode).lookup "message" = none)
    ∧ (statusCode = 404 →
        (detectorResponse id zombie statusCode).lookup "message"
          = some (.str "Driver not found")
        ∧ (detectorResponse id zombie statusCode).lookup "zombie" = none)
    ∧ (statusCode ≠ 200 → statusCode ≠ 404 →
        (detectorResponse id zombie statusCode).lookup "message"
          = some (.str "An error occurred")
        ∧ (detectorResponse id zombie statusCode).lookup "zombie" = none) := by
  refine ⟨fun env => rfl, ?_, ?_, ?_, ?_⟩
  · unfold detectorResponse
    split
    · split <;> simp [List.lookup]
    · simp [List.lookup]
  · intro h
    subst h
    constructor <;> simp [detectorResponse, List.lookup]
  · intro h
    subst h
    constructor <;> simp [detectorResponse, List.lookup]
  · intro h1 h2
    constructor <;> simp [detectorResponse, List.lookup, h1, h2]

/-- Witness of C19: status 404 gives the message `Driver not found` and no `zombie` field. -/
theorem zombieDetector_response_witness :
    (detectorResponse "IDONTEXIST" false 404).lookup "message"
        = some (.str "Driver not found")
    ∧ (detectorResponse "IDONTEXIST" false 404).lookup "zombie" = none :=
  (zombieDetector_response "IDONTEXIST" false 404).2.2.2.1 rfl

/-! ### The gateway handler -/

/-- C20: `nsqHandler` answers 400 `Body is not a JSON.` when the body does not decode;
otherwise `Missing latitude/longitude` when either key is absent; otherwise
`Longitude is not a number` when longitude is not a float64, whatever latitude holds;
otherwise `Latitude is not a number` when latitude is not a float64; in these four cases
nothing is posted. A posted message comes from a body that passes the four checks and
holds the driver id of the path with the longitude and the latitude of the body, and
nothing else; such a body is posted as soon as the message can be encoded. -/
theorem nsqHandler_checks (env : GatewayEnv) (id : String) :
    nsqHandler env id .undecodable = ((400, "Body is not a JSON."), [])
    ∧ (∀ parsedBody : JObject,
        parsedBody.lookup "longitude" = none ∨ parsedBody.lookup "latitude" = none →
        nsqHandler env id (.decoded parsedBody) = ((400, "Missing latitude/longitude"), []))
    ∧ (∀ (parsedBody : JObject) (longitude latitude : JValue),
        parsedBody.lookup "longitude" = some longitude →
        parsedBody.lookup "latitude" = some latitude →
        (∀ f, longitude ≠ .num f) →
        nsqHandler env id (.decoded parsedBody) = ((400, "Longitude is not a number"), []))
    ∧ (∀ (parsedBody : JObject) (lon : ℚ) (latitude : JValue),
        parsedBody.lookup "longitude" = some (.num lon) →
        parsedBody.lookup "latitude" = some latitude →
        (∀ f, latitude ≠ .num f) →
        nsqHandler env id (.decoded parsedBody) = ((400, "Latitude is not a number"), []))
    ∧ (∀ (parsedBody : JObject) (lon lat : ℚ),
        parsedBody.lookup "longitude" = some (.num lon) →
        parsedBody.lookup "latitude" = some (.num lat) →
        (nsqHandler env id (.decoded parsedBody)).2
          = if env.marshalFails then []
            else [[("driverId", .str id), ("longitude", .num lon), ("latitude", .num lat)]])
    ∧ (∀ (body : RequestBody) (message : JObject),
        message ∈ (nsqHandler env id body).2 →
        ∃ parsedBody lon lat, body = .decoded parsedBody
          ∧ parsedBody.lookup "longitude" = some (.num lon)
          ∧ parsedBody.lookup "latitude" = some (.num lat)
          ∧ message = [("driverId", .str id), ("longitude", .num lon),
              ("latitude", .num lat)]) := by
  refine ⟨rfl, ?_, ?_, ?_, ?_, ?_⟩
  · intro parsedBody h
    rcases h with h | h
    · simp [nsqHandler, h]
    · cases hl : parsedBody.lookup "longitude" <;> simp [nsqHandler, h, hl]
  · intro parsedBody longitude latitude h1 h2 hn
    cases longitude with
    | num f => exact absurd rfl (hn f)
    | _ => simp [nsqHandler, h1, h2]
  · intro parsedBody lon latitude h1 h2 hn
    cases latitude with
    | num f => exact absurd rfl (hn f)
    | _ => simp [nsqHandler, h1, h2]
  · intro parsedBody lon lat h1 h2
    unfold nsqHandler
    simp only [h1, h2]
    cases env.marshalFails with
    | true => rfl
    | false =>
      simp only [Bool.false_eq_true, if_false]
      cases env.post [("driverId", .str id), ("longitude", .num lon), ("latitude", .num lat)] with
      | failed => rfl
      | answered readable => cases readable <;> rfl
  · intro body message hmem
    cases body with
    | unreadable err => simp [nsqHandler] at hmem
    | undecodable => simp [nsqHandler] at hmem
    | decoded parsedBody =>
      unfold nsqHandler at hmem
      cases h1 : parsedBody.lookup "longitude" with
      | none => simp [h1] at hmem
      | some longitude =>
        cases h2 : parsedBody.lookup "latitude" with
        | none => simp [h1, h2] at hmem
        | some latitude =>
          simp only [h1, h2] at hmem
          cases longitude with
          | num lon =>
            cases latitude with
            | num lat =>
              refine ⟨parsedBody, lon, lat, rfl, h1, h2, ?_⟩
              simp only [] at hmem
              cases hm : env.marshalFails with
              | true => simp [hm] at hmem
              | false =>
                simp only [hm, Bool.false_eq_true, if_false] at hmem
                cases hp : env.post
                    [("driverId", .str id), ("longitude", .num lon), ("latitude", .num lat)] with
                | failed => rw [hp] at hmem; simpa using hmem
                | answered readable =>
                  rw [hp] at hmem
                  cases readable <;> simpa using hmem
            | _ => simp at hmem
          | _ => simp at hmem

/-- Witness of C20: longitude and latitude both given as strings are answered
`Longitude is not a number`, and the regular body of driver `test001` is posted with the
three fields. -/
theorem nsqHandler_checks_witness :
    nsqHandler publishingEnv "test001"
        (.decoded [("longitude", .str "2.364988"), ("latitude", .str "48.864193")])
      = ((400, "Longitude is not a number"), [])
    ∧ (nsqHandler publishingEnv "test001"
        (.decoded [("longitude", .num 2.364988), ("latitude", .num 48.864193),
          ("driverId", .str "intruder")])).2
      = [[("driverId", .str "test001"), ("longitude", .num 2.364988),
          ("latitude", .num 48.864193)]] :=
  ⟨(nsqHandler_checks publishingEnv "test001").2.2.1 _ (.str "2.364988") (.str "48.864193")
      rfl rfl (by intro f h; cases h),
   (nsqHandler_checks publishingEnv "test001").2.2.2.2.1 _ 2.364988 48.864193 rfl rfl⟩

/-! ### The short-circuit scan -/

theorem eligibleScan_maximal (now : Int) (window : ℚ) (l : List Int) :
    ∀ p : List Int, p <+: l → (∀ t ∈ p, (t : ℚ) ≥ (now : ℚ) - window) →
      p <+: eligibleScan now window l := by
  induction l with
  | nil =>
    intro p hp _
    rw [List.prefix_nil] at hp
    subst hp
    exact List.nil_prefix
  | cons a rest ih =>
    intro p hp hall
    cases p with
    | nil => exact List.nil_prefix
    | cons b q =>
      obtain ⟨hab, hq⟩ := List.cons_prefix_cons.mp hp
      subst hab
      have hb : (b : ℚ) ≥ (now : ℚ) - window := hall b (List.mem_cons_self _ _)
      unfold eligibleScan
      rw [if_pos hb]
      exact List.cons_prefix_cons.mpr
        ⟨rfl, ih q hq (fun t ht => hall t (List.mem_cons_of_mem _ ht))⟩

theorem eligibleScan_eq_filter_of_sorted (now : Int) (window : ℚ) (l : List Int)
    (hsorted : l.Pairwise (fun a b => a ≥ b)) :
    eligibleScan now window l = filterWindow now window l := by
  induction l with
  | nil => rfl
  | cons a rest ih =>
    obtain ⟨ha, hrest⟩ := List.pairwise_cons.mp hsorted
    unfold eligibleScan filterWindow
    by_cases h : (a : ℚ) ≥ (now : ℚ) - window
    · rw [if_pos h, List.filter_cons_of_pos (by simpa using h), ih hrest]
      rfl
    · rw [if_neg h, List.filter_cons_of_neg (by simpa using h)]
      symm
      rw [List.filter_eq_nil_iff]
      intro t ht
      have h1 : t ≤ a := ha t ht
      have h2 : (t : ℚ) ≤ (a : ℚ) := by exact_mod_cast h1
      simp only [decide_eq_true_eq, not_le, ge_iff_le] at h ⊢
      linarith

/-- C21: the eligible list of `getLocations` is the longest initial segment of the listing
whose timestamps are all at least `now - windowMinutes*60`: it is an initial segment, all
its entries pass the test, every initial segment with that property is an initial segment
of it, and a timestamp equal to the cutoff is kept. For a listing in descending order it is
the list obtained by filtering the whole listing with the same test. -/
theorem eligibleScan_longest_initial_segment (now : Int) (window : ℚ) (l : List Int) :
    eligibleScan now window l <+: l
    ∧ (∀ t ∈ eligibleScan now window l, (t : ℚ) ≥ (now : ℚ) - window)
    ∧ (∀ p : List Int, p <+: l → (∀ t ∈ p, (t : ℚ) ≥ (now : ℚ) - window) →
        p <+: eligibleScan now window l)
    ∧ (∀ (t : Int) (rest : List Int), (t : ℚ) = (now : ℚ) - window →
        eligibleScan now window (t :: rest) = t :: eligibleScan now window rest)
    ∧ (∀ (t : Int) (rest : List Int), (t : ℚ) < (now : ℚ) - window →
        eligibleScan now window (t :: rest) = [])
    ∧ (l.Pairwise (fun a b => a ≥ b) →
        eligibleScan now window l = filterWindow now window l) := by
  refine ⟨eligibleScan_initial now window l, eligibleScan_ge now window l,
    eligibleScan_maximal now window l, ?_, ?_, eligibleScan_eq_filter_of_sorted now window l⟩
  · intro t rest ht
    rw [eligibleScan, if_pos (le_of_eq ht.symm)]
  · intro t rest ht
    rw [eligibleScan, if_neg (not_le.mpr ht)]

/-- Witness of C21: at time 1539850371 with a window of 30 seconds, the descending listing
loses its two oldest entries, by the scan as by the filter, and keeps the one at the cutoff. -/
theorem eligibleScan_longest_initial_segment_witness :
    eligibleScan 1539850371 30 [1539850371, 1539850356, 1539850341, 1539850340, 1539763971]
      = filterWindow 1539850371 30
          [1539850371, 1539850356, 1539850341, 1539850340, 1539763971] :=
  (eligibleScan_longest_initial_segment 1539850371 30
    [1539850371, 1539850356, 1539850341, 1539850340, 1539763971]).2.2.2.2.2 (by decide)

/-! ### Pairing of the distance lookups -/

/-- C22: in the response loop with distance, the record built at loop index `i > 0` for
the entry `j = len-1-i` of the eligible array takes as step distance the reply of the
lookup between that entry and the entry `j+1` of the array, the next older one, whatever
the position lookup of that older entry gave; a failed position lookup appends nothing and
leaves the total as it is. So with the middle one of three samples skipped, the record of
the newest carries the 20 metres from the skipped sample, not the 25 metres from the record
before it, and the 10 metres into the skipped sample are not in the total. -/
theorem distance_paired_by_index :
    (∀ (env : LocationEnv) (id : String) (elig : List Int) (n i : Nat) (total : ℚ)
        (response : List Record) (ts next : Int) (lon lat : ℚ)
        (tail : List (Option (ℚ × ℚ))) (d : ℚ),
        i ≠ 0 → elig[elig.length - 1 - i]? = some ts →
        elig[elig.length - 1 - i + 1]? = some next →
        env.geopos i (logKey id) ts = .ok (some (lon, lat) :: tail) →
        env.geodist i (logKey id) ts next = .ok d →
        responseLoop env id true elig (n + 1) i total response
          = responseLoop env id true elig n (i + 1) (total + d)
              (response ++ [⟨floor6 lat, floor6 lon, timestampAsISO ts, some (floor3 d),
                some (floor3 (total + d))⟩]))
    ∧ (∀ (env : LocationEnv) (id : String) (wantsDistance : Bool) (elig : List Int)
        (n i : Nat) (total : ℚ) (response : List Record) (ts : Int) (err : RedisErr),
        elig[elig.length - 1 - i]? = some ts →
        env.geopos i (logKey id) ts = .error err →
        responseLoop env id wantsDistance elig (n + 1) i total response
          = responseLoop env id wantsDistance elig n (i + 1) total response)
    ∧ getLocations skipMiddleEnv "test001" (some 5) true
        = .records 200 [
            ⟨48864193 / 1000000, 2364988 / 1000000, "2018-10-18T08:11:51Z", some 0, some 0⟩,
            ⟨48864193 / 1000000, 2364988 / 1000000, "2018-10-18T08:12:51Z", some 20,
              some 20⟩] := by
  refine ⟨?_, ?_, by decide!⟩
  · intro env id elig n i total response ts next lon lat tail d hi hj hj1 hpos hdist
    rw [responseLoop]
    simp only [hj, hpos, hj1, hdist, hi, if_true, if_false]
  · intro env id wantsDistance elig n i total response ts err hj hpos
    rw [responseLoop]
    simp only [hj, hpos]

/-- Witness of C22: at loop index 2 the newest sample is paired with the middle entry of
the array, whose own position lookup failed, and its record carries the 20 metres between
the two. -/
theorem distance_paired_by_index_witness :
    responseLoop skipMiddleEnv "test001" true [1539850371, 1539850341, 1539850311] (0 + 1) 2 0
        [⟨48864193 / 1000000, 2364988 / 1000000, "2018-10-18T08:11:51Z", some 0, some 0⟩]
      = responseLoop skipMiddleEnv "test001" true [1539850371, 1539850341, 1539850311] 0
          (2 + 1) (0 + 20)
          ([⟨48864193 / 1000000, 2364988 / 1000000, "2018-10-18T08:11:51Z", some 0, some 0⟩]
            ++ [⟨floor6 48.864193, floor6 2.364988, timestampAsISO 1539850371,
              some (floor3 20), some (floor3 (0 + 20))⟩]) :=
  distance_paired_by_index.1 skipMiddleEnv "test001" [1539850371, 1539850341, 1539850311]
    0 2 0 _ 1539850371 1539850341 2.364988 48.864193 [] 20 (by decide) rfl rfl rfl rfl

/-! ### A nil position entry among the lookups -/

theorem walk_none_of_nil_entry (env : LocationEnv) (id : String) (wantsDistance : Bool)
    (asc : List Int) :
    ∀ (i : Nat) (prev : Int) (total : ℚ) (response : List Record) (k : Nat) (t : Int)
      (tail : List (Option (ℚ × ℚ))),
      asc[k]? = some t → env.geopos (i + k) (logKey id) t = .ok (none :: tail) →
      walk env id wantsDistance i prev asc total response = none := by
  induction asc with
  | nil =>
    intro i prev total response k t tail hk
    simp at hk
  | cons t0 rest ih =>
    intro i prev total response k t tail hk hnil
    rw [walk]
    cases k with
    | zero =>
      simp only [List.getElem?_cons_zero, Option.some.injEq] at hk
      subst hk
      simp only [Nat.add_zero] at hnil
      rw [hnil]
    | succ k =>
      have hk1 : rest[k]? = some t := by simpa using hk
      have hnil1 : env.geopos (i + 1 + k) (logKey id) t = .ok (none :: tail) := by
        have : i + (k + 1) = i + 1 + k := by omega
        rw [← this]
        exact hnil
      cases hg : env.geopos i (logKey id) t0 with
      | error e =>
        simp only []
        exact ih (i + 1) t0 total response k t tail hk1 hnil1
      | ok reply =>
        cases reply with
        | nil => rfl
        | cons head tail0 =>
          cases head with
          | none => rfl
          | some p =>
            obtain ⟨lon, lat⟩ := p
            simp only []
            exact ih (i + 1) t0 _ _ k t tail hk1 hnil1

/-- C4 does not hold of the code: whenever the position lookup of some eligible timestamp
comes back without error and with a nil entry, which is the answer of the store for a
timestamp that is in the timestamp set and not in the position log, `getLocations` panics:
it answers neither 200 nor any record, whatever the lookups of the other eligible
timestamps find. -/
theorem getLocations_panics_on_nil_entry (env : LocationEnv) (id : String)
    (minutes : Option ℚ) (wantsDistance : Bool) (reply : List Int) (k : Nat) (timestamp : Int)
    (tail : List (Option (ℚ × ℚ)))
    (hsort : env.sort (timestampsKey id) (minutes.getD DefaultMins * 60) = .ok reply)
    (hk : (eligibleScan env.now (minutes.getD DefaultMins * 60) reply).reverse[k]?
      = some timestamp)
    (hnil : env.geopos k (logKey id) timestamp = .ok (none :: tail)) :
    getLocations env id minutes wantsDistance = .panicked := by
  have hne : reply ≠ [] := by
    intro hnil0
    subst hnil0
    simp [eligibleScan] at hk
  rw [getLocations_eq_walk env id minutes wantsDistance reply hsort hne,
    walk_none_of_nil_entry env id wantsDistance _ 0 0 0 [] k timestamp tail hk
      (by rw [Nat.zero_add]; exact hnil)]

/-- C4 at the failing input: the store holds three samples of driver `test001`, the middle
one without position entry; its lookup, at loop index 1, comes back with a nil entry and
the query panics, although the oldest and the newest sample have a position. -/
theorem getLocations_panics_on_nil_entry_witness :
    getLocations (storeEnv (fun _ _ => 0) gapStore 1539850371) "test001" (some 5) false
      = .panicked
    ∧ gapStore.sets (timestampsKey "test001") = [1539850371, 1539850341, 1539850311]
    ∧ (gapStore.geo (logKey "test001") 1539850311).isSome = true
    ∧ gapStore.geo (logKey "test001") 1539850341 = none
    ∧ (gapStore.geo (logKey "test001") 1539850371).isSome = true := by
  have hgeo : gapStore.geo (logKey "test001") 1539850341 = none := by decide!
  refine ⟨?_, by decide, by decide!, hgeo, by decide!⟩
  exact getLocations_panics_on_nil_entry (storeEnv (fun _ _ => 0) gapStore 1539850371)
    "test001" (some 5) false
    (((gapStore.sets (timestampsKey "test001")).insertionSort (fun a b => a ≥ b)).take 300)
    1 1539850341 []
    (sortDesc_whole _ _ _ 300 (by norm_num [DefaultMins]) (by norm_num))
    (by decide!)
    (by
      show Except.ok [gapStore.geo (logKey "test001") 1539850341] = Except.ok [none]
      rw [hgeo])

/-! ### A timestamp without position entry -/

/-- C23 at the failing input: the sample at 1539850341 has its timestamp in the set and no
entry in the position log, the sample at 1539850361 is complete. The lookup of the first
comes back without error and with a nil entry, the handler dereferences it and panics,
where the claim has it skip the sample and answer 200 with the other one. -/
theorem getLocations_panics_on_missing_position :
    persistMessageToRedis (fun _ => "") ⟨none, none, some (.other "timeout"), none⟩ emptyStore
        (sampleMessage "test001" 1539850341 48.864193 2.365988)
      = some (halfWrittenStore, some (.writes [.other "timeout"]))
    ∧ persistMessageToRedis (fun _ => "") allOk halfWrittenStore
        (sampleMessage "test001" 1539850361 48.864193 2.364988)
      = some (partialStore, none)
    ∧ (1539850341 : Int) ∈ partialStore.sets (timestampsKey "test001")
    ∧ partialStore.geo (logKey "test001") 1539850341 = none
    ∧ (storeEnv (fun _ _ => 0) partialStore 1539850371).geopos 0 (logKey "test001") 1539850341
        = .ok [none]
    ∧ getLocations (storeEnv (fun _ _ => 0) partialStore 1539850371) "test001" (some 5) false
        = .panicked := by
  have hgeo : partialStore.geo (logKey "test001") 1539850341 = none := by decide
  refine ⟨?_, persist_sampleMessage _ _ _ _ _ _, by decide, hgeo, ?_, by decide!⟩
  · simp [persistMessageToRedis, sampleMessage, List.lookup, sprintV, halfWrittenStore]
  · show Except.ok [partialStore.geo (logKey "test001") 1539850341] = Except.ok [none]
    rw [hgeo]

/-! ### Rendering and parsing of a timestamp -/

theorem yearOfEra_step (d : Int) (h0 : 0 ≤ d) (h1 : d + 1 ≤ 146096) :
    yearOfEra d ≤ yearOfEra (d + 1) := by
  unfold yearOfEra
  apply Int.ediv_le_ediv (by norm_num)
  omega

theorem yearOfEra_mono_add (a : Int) (h0 : 0 ≤ a) :
    ∀ n : Nat, a + n ≤ 146096 → yearOfEra a ≤ yearOfEra (a + n) := by
  intro n
  induction n with
  | zero => intro _; simp
  | succ n ih =>
    intro h
    have h1 := ih (by push_cast at h; omega)
    have h2 := yearOfEra_step (a + n) (by omega) (by push_cast at h; omega)
    have h3 : a + ((n + 1 : Nat) : Int) = a + n + 1 := by push_cast; ring
    rw [h3]
    exact le_trans h1 h2

theorem yearOfEra_mono (a b : Int) (h0 : 0 ≤ a) (hab : a ≤ b) (h1 : b ≤ 146096) :
    yearOfEra a ≤ yearOfEra b := by
  have h := yearOfEra_mono_add a h0 (b - a).toNat (by omega)
  have h2 : a + ((b - a).toNat : Int) = b := by omega
  rwa [h2] at h

theorem yearOfEra_table :
    (List.range 400).all (fun n =>
      decide (yearOfEra (yearStart (n : Int)) = (n : Int))
        && (n == 0 || decide (yearOfEra (yearStart (n : Int) - 1) = (n : Int) - 1))) = true := by
  decide!

theorem yearOfEra_yearStart (k : Int) (h0 : 0 ≤ k) (h1 : k ≤ 399) :
    yearOfEra (yearStart k) = k ∧ (1 ≤ k → yearOfEra (yearStart k - 1) = k - 1) := by
  obtain ⟨n, rfl⟩ := Int.eq_ofNat_of_zero_le h0
  have hn : n < 400 := by omega
  have h := List.all_eq_true.mp yearOfEra_table n (List.mem_range.mpr hn)
  simp only [Bool.and_eq_true, decide_eq_true_eq, Bool.or_eq_true, beq_iff_eq] at h
  refine ⟨h.1, fun hk => ?_⟩
  rcases h.2 with h2 | h2
  · omega
  · exact h2

theorem yearOfEra_spec (doe : Int) (h0 : 0 ≤ doe) (h1 : doe ≤ 146096) :
    0 ≤ yearOfEra doe ∧ yearOfEra doe ≤ 399
    ∧ yearStart (yearOfEra doe) ≤ doe
    ∧ doe - yearStart (yearOfEra doe) ≤ 365
    ∧ (doe - yearStart (yearOfEra doe) = 365 →
        (yearOfEra doe + 1) % 4 = 0
        ∧ ((yearOfEra doe + 1) % 100 ≠ 0 ∨ (yearOfEra doe + 1) % 400 = 0)) := by
  have hb : 0 ≤ yearOfEra doe ∧ yearOfEra doe ≤ 399 := by
    unfold yearOfEra; omega
  obtain ⟨hk0, hk1⟩ := hb
  generalize hk : yearOfEra doe = k at *
  have hlow : yearStart k ≤ doe := by
    by_contra hlt
    have hk1' : 1 ≤ k := by
      by_contra h
      have : k = 0 := by omega
      subst this
      simp [yearStart] at hlt
      omega
    have h2 := (yearOfEra_yearStart k hk0 hk1).2 hk1'
    have hs0 : 0 ≤ yearStart k - 1 := by unfold yearStart; omega
    have := yearOfEra_mono doe (yearStart k - 1) h0 (by omega) (by unfold yearStart; omega)
    omega
  have hup : k ≤ 398 → doe < yearStart (k + 1) := by
    intro hk398
    by_contra hge
    have h2 := (yearOfEra_yearStart (k + 1) (by omega) (by omega)).1
    have := yearOfEra_mono (yearStart (k + 1)) doe (by unfold yearStart; omega) (by omega) h1
    omega
  have hd : (k + 1) / 4 = k / 4 ∨ (k + 1) / 4 = k / 4 + 1 := by omega
  have he : (k + 1) / 100 = k / 100 ∨ (k + 1) / 100 = k / 100 + 1 := by omega
  unfold yearStart at hlow hup ⊢
  refine ⟨hk0, hk1, hlow, ?_, ?_⟩
  · by_cases h : k ≤ 398
    · have := hup h; omega
    · omega
  · intro h365
    by_cases h : k ≤ 398
    · have := hup h; omega
    · omega

theorem civilFromDays_spec (days : Int) :
    daysFromCivil (civilFromDays days).1 (civilFromDays days).2.1 (civilFromDays days).2.2 = days
    ∧ 1 ≤ (civilFromDays days).2.1 ∧ (civilFromDays days).2.1 ≤ 12
    ∧ 1 ≤ (civilFromDays days).2.2
    ∧ (0 ≤ (civilFromDays days).1 →
        (civilFromDays days).2.2
          ≤ (daysIn (civilFromDays days).1.toNat (civilFromDays days).2.1.toNat : Int)) := by
  have hdoe0 : 0 ≤ days + 719468 - (days + 719468) / 146097 * 146097 := by omega
  have hdoe1 : days + 719468 - (days + 719468) / 146097 * 146097 ≤ 146096 := by omega
  have hspec := yearOfEra_spec _ hdoe0 hdoe1
  unfold yearOfEra yearStart at hspec
  simp only [civilFromDays]
  generalize hera : (days + 719468) / 146097 = era at *
  generalize hdoe : days + 719468 - era * 146097 = doe at *
  generalize hyoe : (doe - doe / 1460 + doe / 36524 - doe / 146096) / 365 = yoe at *
  generalize hdoy : doe - (365 * yoe + yoe / 4 - yoe / 100) = doy at *
  obtain ⟨hy0, hy1, hs0, hs1, hleap⟩ := hspec
  have hmp : 0 ≤ (5 * doy + 2) / 153 ∧ (5 * doy + 2) / 153 ≤ 11 := by omega
  generalize hmpd : (5 * doy + 2) / 153 = mp at *
  obtain ⟨hmp0, hmp1⟩ := hmp
  have hq : (yoe + era * 400) / 400 = era := by omega
  have hq1 : (yoe + era * 400 + 1 - 1) / 400 = era := by omega
  clear hyoe hs0 hera hdoe0 hdoe1
  interval_cases mp
  all_goals simp only [daysFromCivil]
  all_goals norm_num [daysIn, hq, hq1]
  all_goals refine ⟨by omega, by omega, fun hy => ?_⟩
  all_goals omega

theorem digitOf_digitChar (n : Nat) : digitOf (digitChar n) = some (n % 10) := by
  unfold digitChar
  have h : n % 10 < 10 := Nat.mod_lt _ (by norm_num)
  generalize n % 10 = k at h
  interval_cases k <;> rfl

theorem num2_digitChar (a b : Nat) :
    num2 (digitChar a) (digitChar b) = some (10 * (a % 10) + b % 10) := by
  simp [num2, digitOf_digitChar]

theorem num2_pad2 (n : Nat) (h : n < 100) : num2 (digitChar (n / 10)) (digitChar n) = some n := by
  rw [num2_digitChar]
  congr 1
  omega

theorem num4_pad4 (n : Nat) (h : n < 10000) :
    num4 (digitChar (n / 1000)) (digitChar (n / 100)) (digitChar (n / 10)) (digitChar n)
      = some n := by
  simp only [num4, num2_digitChar]
  congr 1
  omega

theorem parseRFC3339_utc (y1 y2 y3 y4 mo1 mo2 d1 d2 h1 h2 mi1 mi2 s1 s2 : Char)
    (y mo d h mi sec : Nat)
    (hy : num4 y1 y2 y3 y4 = some y) (hmo : num2 mo1 mo2 = some mo) (hd : num2 d1 d2 = some d)
    (hh : num2 h1 h2 = some h) (hmi : num2 mi1 mi2 = some mi) (hs : num2 s1 s2 = some sec)
    (hvalid : 1 ≤ mo ∧ mo ≤ 12 ∧ 1 ≤ d ∧ d ≤ daysIn y mo ∧ h < 24 ∧ mi < 60 ∧ sec < 60) :
    parseRFC3339 (String.mk [y1, y2, y3, y4, '-', mo1, mo2, '-', d1, d2, 'T', h1, h2, ':',
        mi1, mi2, ':', s1, s2, 'Z'])
      = some (daysFromCivil y mo d * 86400 + ((h * 3600 + mi * 60 + sec : Nat) : Int)) := by
  simp only [parseRFC3339, hy, hmo, hd, hh, hmi, hs, dropFraction, parseZone]
  rw [if_pos hvalid]
  simp

theorem timestampAsISO_fields (ts : Int) (hyear : 1 ≤ utcYear ts ∧ utcYear ts ≤ 9999) :
    ∃ y mo d h mi s : Nat,
      (1 ≤ y ∧ y ≤ 9999)
      ∧ (1 ≤ mo ∧ mo ≤ 12 ∧ 1 ≤ d ∧ d ≤ daysIn y mo ∧ h < 24 ∧ mi < 60 ∧ s < 60)
      ∧ daysFromCivil y mo d * 86400 + ((h * 3600 + mi * 60 + s : Nat) : Int) = ts
      ∧ timestampAsISO ts
          = String.mk (pad4 y ++ ['-'] ++ pad2 mo ++ ['-'] ++ pad2 d ++ ['T']
              ++ pad2 h ++ [':'] ++ pad2 mi ++ [':'] ++ pad2 s ++ ['Z']) := by
  unfold utcYear at hyear
  obtain ⟨hrt, hm1, hm12, hd1, hdin⟩ := civilFromDays_spec (ts / 86400)
  have hdin1 := hdin (by omega)
  have hsecs : 0 ≤ ts % 86400 ∧ ts % 86400 < 86400 := by omega
  rcases hc : civilFromDays (ts / 86400) with ⟨y, m, d⟩
  simp only [hc] at hrt hm1 hm12 hd1 hdin1 hyear
  have e1 : ((y.toNat : Nat) : Int) = y := Int.toNat_of_nonneg (by omega)
  have e2 : ((m.toNat : Nat) : Int) = m := Int.toNat_of_nonneg (by omega)
  have e3 : ((d.toNat : Nat) : Int) = d := Int.toNat_of_nonneg (by omega)
  refine ⟨y.toNat, m.toNat, d.toNat, (ts % 86400 / 3600).toNat,
    (ts % 86400 % 3600 / 60).toNat, (ts % 86400 % 60).toNat,
    ⟨by omega, by omega⟩,
    ⟨by omega, by omega, by omega, by omega, by omega, by omega, by omega⟩, ?_, ?_⟩
  · rw [e1, e2, e3, hrt]
    omega
  · simp only [timestampAsISO, hc]

theorem parse_timestampAsISO (ts : Int) (hyear : 1 ≤ utcYear ts ∧ utcYear ts ≤ 9999) :
    parseRFC3339 (timestampAsISO ts) = some ts := by
  obtain ⟨y, mo, d, h, mi, s, _, hvalid, hinst, hstr⟩ := timestampAsISO_fields ts hyear
  have hd31 : d ≤ 31 := by
    have : daysIn y mo ≤ 31 := by
      unfold daysIn
      split_ifs <;> omega
    omega
  rw [hstr]
  simp only [pad4, pad2, List.cons_append, List.nil_append, List.append_assoc]
  rw [parseRFC3339_utc _ _ _ _ _ _ _ _ _ _ _ _ _ _ y mo d h mi s
    (num4_pad4 _ (by omega)) (num2_pad2 _ (by omega)) (num2_pad2 _ (by omega))
    (num2_pad2 _ (by omega)) (num2_pad2 _ (by omega)) (num2_pad2 _ (by omega)) hvalid]
  exact congrArg some hinst

theorem utcYear_range (ts : Int) :
    (1 ≤ utcYear ts ∧ utcYear ts ≤ 9999) ↔ (-62135596800 ≤ ts ∧ ts ≤ 253402300799) := by
  have hdoe0 : 0 ≤ ts / 86400 + 719468 - (ts / 86400 + 719468) / 146097 * 146097 := by omega
  have hdoe1 : ts / 86400 + 719468 - (ts / 86400 + 719468) / 146097 * 146097 ≤ 146096 := by
    omega
  have hspec := yearOfEra_spec _ hdoe0 hdoe1
  unfold yearOfEra yearStart at hspec
  simp only [utcYear, civilFromDays]
  generalize hdays : ts / 86400 = days at *
  generalize hera : (days + 719468) / 146097 = era at *
  generalize hdoe : days + 719468 - era * 146097 = doe at *
  generalize hyoe : (doe - doe / 1460 + doe / 36524 - doe / 146096) / 365 = yoe at *
  generalize hdoy : doe - (365 * yoe + yoe / 4 - yoe / 100) = doy at *
  obtain ⟨hy0, hy1, hs0, hs1, hleap⟩ := hspec
  generalize hmpd : (5 * doy + 2) / 153 = mp at *
  clear hyoe hleap
  have hc1 : yoe = 0 ∨ 1 ≤ yoe := by omega
  have hc2 : yoe ≤ 398 ∨ yoe = 399 := by omega
  split_ifs <;> constructor <;> intro h
  all_goals have hb1 : 0 ≤ era := by omega
  all_goals have hb2 : era ≤ 24 := by omega
  all_goals have hb3 : era = 0 ∨ (1 ≤ era ∧ era ≤ 23) ∨ era = 24 := by omega
  all_goals rcases hb3 with hb3 | hb3 | hb3 <;> rcases hc1 with hc1 | hc1 <;>
    rcases hc2 with hc2 | hc2 <;> omega

theorem tsListOf_of_rendered (tss : List Int) :
    ∀ parsedBody : List JObject,
      (∀ t ∈ tss, 1 ≤ utcYear t ∧ utcYear t ≤ 9999) →
      List.Forall₂
        (fun t (jsonEntry : JObject) =>
          jsonEntry.lookup "updated_at" = some (JValue.str (timestampAsISO t)))
        tss parsedBody →
      tsListOf parsedBody = tss := by
  induction tss with
  | nil =>
    intro parsedBody _ h
    cases h
    rfl
  | cons t rest ih =>
    intro parsedBody hr h
    cases h with
    | cons hhead htail =>
      have h1 : updatedAtUnix _ = some t :=
        (updatedAtUnix_eq_some _ t).mpr
          ⟨_, hhead, parse_timestampAsISO t (hr t (List.mem_cons_self _ _))⟩
      have h2 := ih _ (fun u hu => hr u (List.mem_cons_of_mem _ hu)) htail
      unfold tsListOf at h2 ⊢
      rw [List.filterMap_cons, h1, h2]

/-- C24: for a Unix timestamp `ts` whose UTC year lies in 0001..9999 (the timestamps
-62135596800..253402300799), `timestampAsISO ts` is the twenty-character string
`yyyy-mm-ddThh:mm:ssZ` of a valid civil date and time of day that denote the instant `ts`
(1539850371 gives `2018-10-18T08:12:51Z`); parsing it as RFC 3339 and taking Unix seconds
gives `ts` back; so the rendering is injective on the range, an entry carrying it as
`updated_at` is read back as `ts`, and the first loop of `evaluateDistance` over entries that
carry the renderings of a list of timestamps yields exactly that list. -/
theorem timestampAsISO_parse_round_trip (ts : Int)
    (hyear : 1 ≤ utcYear ts ∧ utcYear ts ≤ 9999) :
    (-62135596800 ≤ ts ∧ ts ≤ 253402300799)
    ∧ (∃ y mo d h mi s : Nat,
        (1 ≤ y ∧ y ≤ 9999)
        ∧ (1 ≤ mo ∧ mo ≤ 12 ∧ 1 ≤ d ∧ d ≤ daysIn y mo ∧ h < 24 ∧ mi < 60 ∧ s < 60)
        ∧ daysFromCivil y mo d * 86400 + ((h * 3600 + mi * 60 + s : Nat) : Int) = ts
        ∧ timestampAsISO ts
            = String.mk (pad4 y ++ ['-'] ++ pad2 mo ++ ['-'] ++ pad2 d ++ ['T']
                ++ pad2 h ++ [':'] ++ pad2 mi ++ [':'] ++ pad2 s ++ ['Z']))
    ∧ ((timestampAsISO ts).length = 20 ∧ (timestampAsISO ts).data.getLast? = some 'Z')
    ∧ timestampAsISO 1539850371 = "2018-10-18T08:12:51Z"
    ∧ parseRFC3339 (timestampAsISO ts) = some ts
    ∧ (∀ ts2 : Int, 1 ≤ utcYear ts2 ∧ utcYear ts2 ≤ 9999 →
        timestampAsISO ts2 = timestampAsISO ts → ts2 = ts)
    ∧ (∀ jsonEntry : JObject,
        jsonEntry.lookup "updated_at" = some (JValue.str (timestampAsISO ts)) →
        updatedAtUnix jsonEntry = some ts)
    ∧ (∀ (tss : List Int) (parsedBody : List JObject),
        (∀ t ∈ tss, 1 ≤ utcYear t ∧ utcYear t ≤ 9999) →
        List.Forall₂
          (fun t (jsonEntry : JObject) =>
            jsonEntry.lookup "updated_at" = some (JValue.str (timestampAsISO t)))
          tss parsedBody →
        tsListOf parsedBody = tss) := by
  have hparse := parse_timestampAsISO ts hyear
  refine ⟨(utcYear_range ts).mp hyear, timestampAsISO_fields ts hyear, ?_, by decide, hparse,
    ?_, ?_, tsListOf_of_rendered⟩
  · obtain ⟨y, mo, d, h, mi, s, _, _, _, hstr⟩ := timestampAsISO_fields ts hyear
    rw [hstr]
    constructor
    · simp [String.length, pad4, pad2]
    · simp [pad4, pad2]
  · intro ts2 h2 heq
    have hp2 := parse_timestampAsISO ts2 h2
    rw [heq, hparse] at hp2
    exact (Option.some.inj hp2).symm
  · intro jsonEntry hentry
    exact (updatedAtUnix_eq_some jsonEntry ts).mpr ⟨_, hentry, hparse⟩

/-- C24 at the timestamp of the source test: 1539850371 has UTC year 2018 and
`2018-10-18T08:12:51Z` parses back to it. -/
theorem timestampAsISO_parse_round_trip_witness :
    (1 ≤ utcYear 1539850371 ∧ utcYear 1539850371 ≤ 9999)
    ∧ timestampAsISO 1539850371 = "2018-10-18T08:12:51Z"
    ∧ parseRFC3339 (timestampAsISO 1539850371) = some 1539850371 :=
  ⟨by decide, (timestampAsISO_parse_round_trip 1539850371 (by decide)).2.2.2.1,
    (timestampAsISO_parse_round_trip 1539850371 (by decide)).2.2.2.2.1⟩

end ZombieDrivers
